import Mathlib

/-!
Shallow embedding of the EUID reference implementation (Rust crate `euid`:
`src/lib.rs`, `src/time.rs`, `src/check.rs`, `src/base32.rs`) and proofs
about it.  Machine integers (`u64`, `u128`, `u16`, `usize`) are modelled as
`Nat`, with explicit `% 2^w` at the places where the source can wrap; the
random and clock sources are modelled as explicit parameters.
-/

/-- Error enum from `src/lib.rs`. -/
inductive Error where
  | InvalidLength : Nat → Nat → Error
  | InvalidCharacter : Char → Error
  | InvalidCheckmod : Nat → Nat → Error
deriving DecidableEq, Repr

/-- The EUID value: two 64-bit words `hi` (`.0` in the source) and `lo` (`.1`). -/
structure EUID where
  hi : Nat
  lo : Nat
deriving DecidableEq, Repr

/-- `EUID::TIMESTAMP_BITMASK = 0x1fffffffffff` (45 bits). -/
def EUID.TIMESTAMP_BITMASK : Nat := 0x1fffffffffff

/-- `EUID::EXT_LEN_BITMASK = 0xf`. -/
def EUID.EXT_LEN_BITMASK : Nat := 0xf

/-- `EUID::EXT_DATA_BITMASK = 0x7fff`. -/
def EUID.EXT_DATA_BITMASK : Nat := 0x7fff

/-- `EUID::extension` from `src/lib.rs`. -/
def EUID.extension (e : EUID) : Option Nat :=
  let ext_len : Nat := e.hi &&& EUID.EXT_LEN_BITMASK
  if ext_len = 0 then
    none
  else
    let bitmask : Nat := (1 <<< ext_len) - 1
    some ((e.hi >>> 4) &&& bitmask)

/-- `EUID::timestamp` from `src/lib.rs`. -/
def EUID.timestamp (e : EUID) : Nat :=
  (e.hi >>> 19) &&& EUID.TIMESTAMP_BITMASK

/-- `EUID::get_ext_bit_len` from `src/lib.rs`.  `x` is a `u16`, so the
shifts wrap modulo `2^16` (they never actually overflow on the taken
branches, but the truncation is kept for faithfulness). -/
def EUID.get_ext_bit_len (ext : Nat) : Nat :=
  let x : Nat := ext &&& 0x7fff
  let n : Nat := 0
  let xn : Nat × Nat := if x ≤ 0x00ff then ((x <<< 8) % 65536, n + 8) else (x, n)
  let xn : Nat × Nat := if xn.1 ≤ 0x0fff then ((xn.1 <<< 4) % 65536, xn.2 + 4) else xn
  let xn : Nat × Nat := if xn.1 ≤ 0x3fff then ((xn.1 <<< 2) % 65536, xn.2 + 2) else xn
  let n : Nat := if xn.1 ≤ 0x7fff then xn.2 + 1 else xn.2
  16 - n

/-- `EUID::create_with_timestamp` from `src/lib.rs`; the two words returned
by `random::random_u128()` are passed in as `r0`, `r1`. -/
def EUID.create_with_timestamp (timestamp r0 r1 : Nat) : Option EUID :=
  if timestamp > EUID.TIMESTAMP_BITMASK then
    none
  else
    some ⟨(timestamp <<< 19) ||| ((r0 &&& 0x7fff) <<< 4), r1⟩

/-- `EUID::create_with_timestamp_and_extension` from `src/lib.rs`; the random
words from `random::random_u128()` are passed in as `r0`, `r1`. -/
def EUID.create_with_timestamp_and_extension (timestamp ext r0 r1 : Nat) : Option EUID :=
  if timestamp > EUID.TIMESTAMP_BITMASK then
    none
  else
    let ext_data : Nat := ext
    if ext_data > EUID.EXT_DATA_BITMASK then
      none
    else
      let ext_len : Nat := EUID.get_ext_bit_len ext
      let remain_rand : Nat := r0 &&& ((1 <<< (15 - ext_len)) - 1)
      let hi : Nat :=
        (timestamp <<< 19) ||| (remain_rand <<< (4 + ext_len)) ||| (ext_data <<< 4) ||| ext_len
      some ⟨hi, r1⟩

/-- `EUID::next` from `src/lib.rs`.  The clock reading
`time::current_timestamp()` is the parameter `now`, the fresh random values
(`random::random_u32()` and, on the create path, `random::random_u128()`)
are the parameters `rnd32`, `r0`, `r1`. -/
def EUID.next (e : EUID) (now rnd32 r0 r1 : Nat) : Option EUID :=
  if now = e.timestamp then
    let r_hi : Nat := e.lo >>> 32
    if r_hi = 0xffffffff then
      none
    else
      some ⟨e.hi, ((r_hi + 1) <<< 32) ||| rnd32⟩
  else
    match e.extension with
    | some ext => EUID.create_with_timestamp_and_extension now ext r0 r1
    | none => EUID.create_with_timestamp now r0 r1

/-- `PartialOrd for EUID` / `Ord for EUID` from `src/lib.rs`
(`partial_cmp`, which always returns `Some`). -/
def EUID.cmp (a b : EUID) : Ordering :=
  if a.hi ≠ b.hi then
    (if a.hi > b.hi then .gt else .lt)
  else if a.lo ≠ b.lo then
    (if a.lo > b.lo then .gt else .lt)
  else .eq

/-- `normalize_timestamp` from `src/time.rs`. -/
def normalize_timestamp (now epoch : Nat) : Nat :=
  if epoch < now then now - epoch else now

/-- `get_timestamp_from_epoch` from `src/time.rs`.  The system clock is
modelled as `clock : Option Nat`: `some now` is a successful
`SystemTime::now().duration_since(UNIX_EPOCH)` reading of `now`
milliseconds (`as_millis() as u64` truncates to 64 bits), `none` is the
`Err(_)` case. -/
def get_timestamp_from_epoch (clock : Option Nat) (epoch : Nat) : Nat :=
  match clock with
  | some now =>
    let millis : Nat := now % 2 ^ 64
    let final_epoch : Nat := epoch &&& 0x3ffffffffff
    normalize_timestamp millis final_epoch
  | none => 0

/-- The `while i > p { i = (i & p) + (i >> 7) }` loop of `check::m7`
(`feature = "std"` version, `src/check.rs`). -/
def m7_loop (i : Nat) : Nat :=
  if 127 < i then m7_loop ((i &&& 0x7f) + (i >>> 7)) else i
termination_by i
decreasing_by
  have h1 : i &&& 0x7f = i % 128 := by
    have h := Nat.and_pow_two_sub_one_eq_mod i 7
    norm_num at h
    exact h
  omega

/-- `check::m7` from `src/check.rs` (`feature = "std"` version): fold the
128-bit value `hi <<< 64 ||| lo` by `(n & 0x7f) + (n >> 7)` until it is at
most `127`, mapping a final `127` to `0`. -/
def m7 (euid : EUID) : Nat :=
  let n : Nat := (euid.hi <<< 64) ||| euid.lo
  let i : Nat := (n &&& 0x7f) + (n >>> 7)
  let r : Nat := m7_loop i
  if r = 127 then 0 else r

example : EUID.get_ext_bit_len 0 = 1 := by decide
example : EUID.get_ext_bit_len 1 = 1 := by decide
example : EUID.get_ext_bit_len 2 = 2 := by decide
example : EUID.get_ext_bit_len 32767 = 15 := by decide

/-- Rust's `Result` type (`Ok` / `Err`). -/
inductive Result (ε α : Type) where
  | Ok : α → Result ε α
  | Err : ε → Result ε α
deriving DecidableEq, Repr

/-- `ENCODING_SYMBOLS` from `src/base32.rs`. -/
def base32.ENCODING_SYMBOLS : List Char :=
  ['0', '1', '2', '3', '4', '5', '6', '7',
   '8', '9', 'A', 'B', 'C', 'D', 'E', 'F',
   'G', 'H', 'J', 'K', 'M', 'N', 'P', 'Q',
   'R', 'S', 'T', 'V', 'W', 'X', 'Y', 'Z']

/-- `DECODING_SYMBOLS` from `src/base32.rs`; the `MCP = usize::MAX`
sentinel is modelled as `none`, a valid 5-bit group `v` as `some v`.
The table has 123 entries (indices 0 through 122). -/
def base32.DECODING_SYMBOLS : List (Option Nat) :=
  [none, none, none, none, none, none, none, none,
   none, none, none, none, none, none, none, none,
   none, none, none, none, none, none, none, none,
   none, none, none, none, none, none, none, none,
   none, none, none, none, none, none, none, none,
   none, none, none, none, none, none, none, none,
   some 0, some 1, some 2, some 3, some 4, some 5, some 6, some 7,
   some 8, some 9, none, none, none, none, none, none,
   none, some 10, some 11, some 12, some 13, some 14, some 15, some 16,
   some 17, some 1, some 18, some 19, some 1, some 20, some 21, some 0,
   some 22, some 23, some 24, some 25, some 26, none, some 27, some 28,
   some 29, some 30, some 31, none, none, none, none, none,
   none, some 10, some 11, some 12, some 13, some 14, some 15, some 16,
   some 17, some 1, some 18, some 19, some 1, some 20, some 21, some 0,
   some 22, some 23, some 24, some 25, some 26, none, some 27, some 28,
   some 29, some 30, some 31]

/-- `to_u5_slice` from `src/base32.rs` (default, `not(feature = "non_binary")`).
The Rust function returns a `[u5; 27]` whose last entry is never written and
stays `0`. -/
def base32.to_u5_slice (hi lo : Nat) : List Nat :=
  [(hi >>> 59) &&& 0x1f,
   (hi >>> 54) &&& 0x1f,
   (hi >>> 49) &&& 0x1f,
   (hi >>> 44) &&& 0x1f,
   (hi >>> 39) &&& 0x1f,
   (hi >>> 34) &&& 0x1f,
   (hi >>> 29) &&& 0x1f,
   (hi >>> 24) &&& 0x1f,
   (hi >>> 19) &&& 0x1f,
   (hi >>> 14) &&& 0x1f,
   (hi >>> 9) &&& 0x1f,
   (hi >>> 4) &&& 0x1f,
   ((hi &&& 0xf) <<< 1) ||| ((lo >>> 63) &&& 0x1),
   (lo >>> 58) &&& 0x1f,
   (lo >>> 53) &&& 0x1f,
   (lo >>> 48) &&& 0x1f,
   (lo >>> 43) &&& 0x1f,
   (lo >>> 38) &&& 0x1f,
   (lo >>> 33) &&& 0x1f,
   (lo >>> 28) &&& 0x1f,
   (lo >>> 23) &&& 0x1f,
   (lo >>> 18) &&& 0x1f,
   (lo >>> 13) &&& 0x1f,
   (lo >>> 8) &&& 0x1f,
   (lo >>> 3) &&& 0x1f,
   (lo &&& 0x7) <<< 2,
   0]

/-- `to_u64_slice` from `src/base32.rs` (default, `not(feature = "non_binary")`). -/
def base32.to_u64_slice (slice : List Nat) : Nat × Nat :=
  let g : Nat → Nat := fun i => slice.getD i 0
  let hi : Nat :=
    ((g 0) <<< 59) ||| ((g 1) <<< 54) ||| ((g 2) <<< 49) ||| ((g 3) <<< 44) |||
    ((g 4) <<< 39) ||| ((g 5) <<< 34) ||| ((g 6) <<< 29) ||| ((g 7) <<< 24) |||
    ((g 8) <<< 19) ||| ((g 9) <<< 14) ||| ((g 10) <<< 9) ||| ((g 11) <<< 4) |||
    (((g 12) >>> 1) &&& 0xf)
  let lo : Nat :=
    (((g 13) <<< 58) ||| (((g 12) &&& 0x1) <<< 63)) |||
    ((g 14) <<< 53) ||| ((g 15) <<< 48) ||| ((g 16) <<< 43) ||| ((g 17) <<< 38) |||
    ((g 18) <<< 33) ||| ((g 19) <<< 28) ||| ((g 20) <<< 23) ||| ((g 21) <<< 18) |||
    ((g 22) <<< 13) ||| ((g 23) <<< 8) ||| ((g 24) <<< 3) ||| ((g 25) >>> 2)
  (hi, lo)

/-- `encode` from `src/base32.rs` (default, `not(feature = "non_binary")`);
the resulting `String` is modelled as its list of characters. -/
def base32.encode (euid : EUID) (checkmod : Bool) : List Char :=
  let slice : List Nat := base32.to_u5_slice euid.hi euid.lo
  let g : Nat → Nat := fun i => slice.getD i 0
  let sym : Nat → Char := fun v => base32.ENCODING_SYMBOLS.getD v '0'
  let check : Nat := if checkmod then m7 euid else 0x7f
  [sym (g 0), sym (g 1), sym (g 2), sym (g 3), sym (g 4), sym (g 5),
   sym (g 6), sym (g 7), sym (g 8), sym (g 9), sym (g 10), sym (g 11),
   sym (g 12), sym (g 13), sym (g 14), sym (g 15), sym (g 16), sym (g 17),
   sym (g 18), sym (g 19), sym (g 20), sym (g 21), sym (g 22), sym (g 23),
   sym (g 24),
   sym ((g 25) ||| (check >>> 5)), sym (check &&& 0x1f)]

/-- The character loop of `decode` from `src/base32.rs`: map every character
through `DECODING_SYMBOLS`, failing with `InvalidCharacter` at the first
character whose code point is out of table range (`≥ 123`,
`DECODING_SYMBOLS.len()`) or whose table entry is the invalid sentinel. -/
def base32.decode_symbols : List Char → Result Error (List Nat)
  | [] => .Ok []
  | c :: cs =>
    if c.toNat ≥ 123 then .Err (.InvalidCharacter c)
    else
      match base32.DECODING_SYMBOLS.getD c.toNat none with
      | none => .Err (.InvalidCharacter c)
      | some v =>
        match base32.decode_symbols cs with
        | .Err e => .Err e
        | .Ok vs => .Ok (v :: vs)

/-- Rust `str::len` (UTF-8 byte length) of a list of characters. -/
def utf8Length (s : List Char) : Nat := (s.map Char.utf8Size).sum

/-- `decode` from `src/base32.rs` (default, `not(feature = "non_binary")`). -/
def base32.decode (encoded : List Char) : Result Error EUID :=
  if utf8Length encoded ≠ 27 then .Err (.InvalidLength (utf8Length encoded) 27)
  else
    match base32.decode_symbols encoded with
    | .Err e => .Err e
    | .Ok slice0 =>
      let r : Nat := (slice0.getD 25 0) &&& 0x3
      let slice : List Nat := slice0.set 25 ((slice0.getD 25 0) &&& 0x1c)
      let e : Nat × Nat := base32.to_u64_slice slice
      let check : Nat := (r <<< 5) ||| (slice.getD 26 0)
      if check = 0x7f then .Ok ⟨e.1, e.2⟩
      else
        let euid : EUID := ⟨e.1, e.2⟩
        let w : Nat := m7 euid
        if check ≠ w then .Err (.InvalidCheckmod check w)
        else .Ok euid

example : base32.encode ⟨0, 0⟩ false = "00000000000000000000000003Z".toList := by decide
example : base32.decode ("00000000000000000000000003Z".toList) = .Ok ⟨0, 0⟩ := by decide
example : base32.decode ("C8754X9NN8H80X298KRKERG8K".toList) = .Err (.InvalidLength 25 27) := by
  decide

/-! ## Arithmetic helpers for the bit-level reasoning -/

theorem lor_eq_add {a b : Nat} (k : Nat) (ha : 2 ^ k ∣ a) (hb : b < 2 ^ k) :
    a ||| b = a + b := by
  obtain ⟨q, hq⟩ := ha
  subst hq
  exact (Nat.mul_add_lt_is_or hb q).symm

theorem and_1 (x : Nat) : x &&& 1 = x % 2 :=
  Nat.and_one_is_mod x

theorem and_3 (x : Nat) : x &&& 3 = x % 4 := by
  have h := Nat.and_pow_two_sub_one_eq_mod x 2
  norm_num at h
  exact h

theorem and_7 (x : Nat) : x &&& 7 = x % 8 := by
  have h := Nat.and_pow_two_sub_one_eq_mod x 3
  norm_num at h
  exact h

theorem and_15 (x : Nat) : x &&& 15 = x % 16 := by
  have h := Nat.and_pow_two_sub_one_eq_mod x 4
  norm_num at h
  exact h

theorem and_31 (x : Nat) : x &&& 31 = x % 32 := by
  have h := Nat.and_pow_two_sub_one_eq_mod x 5
  norm_num at h
  exact h

theorem and_127 (x : Nat) : x &&& 127 = x % 128 := by
  have h := Nat.and_pow_two_sub_one_eq_mod x 7
  norm_num at h
  exact h

theorem and_32767 (x : Nat) : x &&& 32767 = x % 32768 := by
  have h := Nat.and_pow_two_sub_one_eq_mod x 15
  norm_num at h
  exact h

theorem and_mask42 (x : Nat) : x &&& 0x3ffffffffff = x % 4398046511104 := by
  have h := Nat.and_pow_two_sub_one_eq_mod x 42
  norm_num at h
  exact h

theorem and_mask45 (x : Nat) : x &&& 0x1fffffffffff = x % 35184372088832 := by
  have h := Nat.and_pow_two_sub_one_eq_mod x 45
  norm_num at h
  exact h

theorem and_shift_mask (x n : Nat) : x &&& ((1 <<< n) - 1) = x % 2 ^ n := by
  rw [Nat.shiftLeft_eq, one_mul, Nat.and_pow_two_sub_one_eq_mod]

/-! ## The checksum function -/

theorem m7_loop_le (i : Nat) : m7_loop i ≤ 127 := by
  induction i using Nat.strong_induction_on with
  | _ i ih =>
    unfold m7_loop
    split_ifs with h
    · exact ih _ (by have h1 := and_127 i; omega)
    · omega

theorem m7_loop_mod (i : Nat) : m7_loop i % 127 = i % 127 := by
  induction i using Nat.strong_induction_on with
  | _ i ih =>
    unfold m7_loop
    split_ifs with h
    · have h1 := and_127 i
      have h2 := ih ((i &&& 0x7f) + (i >>> 7)) (by omega)
      omega
    · rfl

theorem m7_eq_mod (hi lo : Nat) (hlo : lo < 2 ^ 64) :
    m7 ⟨hi, lo⟩ = (hi * 2 ^ 64 + lo) % 127 := by
  have hN : hi <<< 64 ||| lo = hi * 2 ^ 64 + lo := by
    rw [Nat.shiftLeft_eq]
    exact lor_eq_add 64 (Dvd.dvd.mul_left dvd_rfl hi) hlo
  unfold m7
  dsimp only
  rw [hN]
  have h2 := m7_loop_le (((hi * 2 ^ 64 + lo) &&& 0x7f) + ((hi * 2 ^ 64 + lo) >>> 7))
  have h3 := m7_loop_mod (((hi * 2 ^ 64 + lo) &&& 0x7f) + ((hi * 2 ^ 64 + lo) >>> 7))
  have h4 := and_127 (hi * 2 ^ 64 + lo)
  split_ifs with h <;> omega

theorem m7_le_126 (hi lo : Nat) (hlo : lo < 2 ^ 64) : m7 ⟨hi, lo⟩ ≤ 126 := by
  have h := m7_eq_mod hi lo hlo
  omega

/-- C6 (confirmed): the checksum function realizes modular folding by 127.
For every 128-bit value, seen as the two words of an identifier, `m7`
terminates (it is a total function), equals the value mod 127, hence always
lies in `[0, 126]`, and in particular when the fold loop converges to the
all-ones value `127` the returned checksum is `0`. -/
theorem m7_mod127_checksum (hi lo : Nat) (hhi : hi < 2 ^ 64) (hlo : lo < 2 ^ 64) :
    m7 ⟨hi, lo⟩ = (hi * 2 ^ 64 + lo) % 127 ∧ m7 ⟨hi, lo⟩ ≤ 126 ∧
    (m7_loop (((hi <<< 64 ||| lo) &&& 0x7f) + ((hi <<< 64 ||| lo) >>> 7)) = 127 →
      m7 ⟨hi, lo⟩ = 0) := by
  have h1 := m7_eq_mod hi lo hlo
  refine ⟨h1, by omega, ?_⟩
  intro hconv
  unfold m7
  dsimp only
  rw [if_pos hconv]

/-- Witness for C6 at the concrete input `(hi, lo) = (3, 5)`. -/
theorem m7_mod127_checksum_witness :
    m7 ⟨3, 5⟩ = (3 * 2 ^ 64 + 5) % 127 ∧ m7 ⟨3, 5⟩ ≤ 126 ∧
    (m7_loop (((3 <<< 64 ||| 5) &&& 0x7f) + ((3 <<< 64 ||| 5) >>> 7)) = 127 →
      m7 ⟨3, 5⟩ = 0) :=
  m7_mod127_checksum 3 5 (by norm_num) (by norm_num)

/-! ## Timestamp overflow boundary -/

/-- C1 counterexample: at `t = 2^42` (which exceeds the 42-bit mask
`2^42 - 1`) generation does NOT fail — the actual mask in the code,
`TIMESTAMP_BITMASK = 0x1fffffffffff`, is 45 bits wide. -/
theorem create_with_timestamp_42bit_counterexample :
    EUID.create_with_timestamp (2 ^ 42) 0 0 ≠ none ∧ 2 ^ 42 - 1 < 2 ^ 42 := by
  decide

/-- C1 (corrected): generation fails exactly on 45-bit timestamp overflow:
for every timestamp `t` (and all random inputs), `create_with_timestamp t`
returns `none` if and only if `t` exceeds the 45-bit mask `2^45 - 1`
(`TIMESTAMP_BITMASK`), and likewise `create_with_timestamp_and_extension`
for every extension within 15 bits; within the mask an identifier is
returned rather than wrapping. -/
theorem create_none_iff_45bit_overflow (t r0 r1 : Nat) :
    (EUID.create_with_timestamp t r0 r1 = none ↔ 2 ^ 45 - 1 < t) ∧
    (∀ e, e ≤ 32767 →
      (EUID.create_with_timestamp_and_extension t e r0 r1 = none ↔ 2 ^ 45 - 1 < t)) := by
  constructor
  · unfold EUID.create_with_timestamp EUID.TIMESTAMP_BITMASK
    split_ifs with h
    · exact ⟨fun _ => by omega, fun _ => rfl⟩
    · exact ⟨fun hc => by simp_all, fun hc => absurd hc (by omega)⟩
  · intro e he
    unfold EUID.create_with_timestamp_and_extension EUID.TIMESTAMP_BITMASK
      EUID.EXT_DATA_BITMASK
    dsimp only
    split_ifs with h h2
    · exact ⟨fun _ => by omega, fun _ => rfl⟩
    · omega
    · exact ⟨fun hc => by simp_all, fun hc => absurd hc (by omega)⟩

/-- Witness for C1's amended theorem at `t = 3`, `e = 5`. -/
theorem create_none_iff_45bit_overflow_witness :
    EUID.create_with_timestamp_and_extension 3 5 0 0 = none ↔ 2 ^ 45 - 1 < 3 :=
  (create_none_iff_45bit_overflow 3 0 0).2 5 (by norm_num)

/-! ## Extension bit-length -/

theorem get_ext_bit_len_spec (e : Nat) (he : e ≤ 32767) :
    1 ≤ EUID.get_ext_bit_len e ∧ EUID.get_ext_bit_len e ≤ 15 ∧
    e < 2 ^ EUID.get_ext_bit_len e ∧
    (1 ≤ e → 2 ^ (EUID.get_ext_bit_len e - 1) ≤ e) := by
  have hand : e &&& 0x7fff = e := by rw [and_32767]; omega
  unfold EUID.get_ext_bit_len
  rw [hand]
  dsimp only
  split_ifs <;> dsimp only <;> omega

/-- C8 counterexample: `get_ext_bit_len 0 = 1`, not `0` as the claim
states (the code's own unit test `get_ext_bit_len0` agrees on `1`). -/
theorem get_ext_bit_len_zero_counterexample :
    EUID.get_ext_bit_len 0 = 1 ∧ (1 : Nat) ≠ 0 := by
  decide

/-- C8 (corrected): the stored extension-length field is the minimal
bit-width of the extension value, with a minimum of one bit: for every
`e ≤ 32767`, `get_ext_bit_len e` equals `1` when `e = 0` (not `0`) and
equals `⌈log2 (e + 1)⌉` otherwise, and it never exceeds 15. -/
theorem get_ext_bit_len_minimal_width (e : Nat) (he : e ≤ 32767) :
    (EUID.get_ext_bit_len e = if e = 0 then 1 else Nat.clog 2 (e + 1)) ∧
    EUID.get_ext_bit_len e ≤ 15 := by
  obtain ⟨h1, h15, hlt, hge⟩ := get_ext_bit_len_spec e he
  refine ⟨?_, h15⟩
  by_cases h0 : e = 0
  · subst h0
    simp only [if_pos]
    decide
  · rw [if_neg h0]
    have hub : Nat.clog 2 (e + 1) ≤ EUID.get_ext_bit_len e := by
      rw [← Nat.le_pow_iff_clog_le (by norm_num)]
      omega
    have hlb : EUID.get_ext_bit_len e - 1 < Nat.clog 2 (e + 1) := by
      rw [← Nat.pow_lt_iff_lt_clog (by norm_num)]
      have := hge (by omega)
      omega
    omega

/-- Witness for C8's amended theorem at `e = 5`. -/
theorem get_ext_bit_len_minimal_width_witness :
    (EUID.get_ext_bit_len 5 = if (5 : Nat) = 0 then 1 else Nat.clog 2 (5 + 1)) ∧
    EUID.get_ext_bit_len 5 ≤ 15 :=
  get_ext_bit_len_minimal_width 5 (by norm_num)

/-! ## Custom epoch handling -/

/-- C10 (confirmed): the custom epoch offset is truncated to its low 42
bits before use: for every successful clock reading `now` (a `u64` number
of milliseconds) and every epoch, `get_timestamp_from_epoch` returns
`now - (epoch &&& 0x3ffffffffff)` when the masked epoch is strictly less
than `now` and the raw `now` unchanged otherwise; a clock error yields 0. -/
theorem get_timestamp_from_epoch_spec :
    (∀ now epoch : Nat, now < 2 ^ 64 →
      get_timestamp_from_epoch (some now) epoch =
        if epoch &&& 0x3ffffffffff < now then now - (epoch &&& 0x3ffffffffff) else now) ∧
    (∀ epoch : Nat, get_timestamp_from_epoch none epoch = 0) := by
  constructor
  · intro now epoch h
    unfold get_timestamp_from_epoch normalize_timestamp
    dsimp only
    rw [Nat.mod_eq_of_lt h]
  · intro epoch
    rfl

/-- Witness for C10 at `now = 1000`, `epoch = 10` (and the error case). -/
theorem get_timestamp_from_epoch_spec_witness :
    get_timestamp_from_epoch (some 1000) 10 =
      if 10 &&& 0x3ffffffffff < 1000 then 1000 - (10 &&& 0x3ffffffffff) else 1000 :=
  get_timestamp_from_epoch_spec.1 1000 10 (by norm_num)

/-! ## Packing with an extension -/

theorem cwtae_eq (t e r0 r1 : Nat) (ht : t ≤ 0x1fffffffffff) (he : e ≤ 32767) :
    EUID.create_with_timestamp_and_extension t e r0 r1 =
      some ⟨t * 2 ^ 19
            + (r0 % 2 ^ (15 - EUID.get_ext_bit_len e)) * 2 ^ (4 + EUID.get_ext_bit_len e)
            + e * 2 ^ 4 + EUID.get_ext_bit_len e, r1⟩ := by
  obtain ⟨hL1, hL15, hLe, -⟩ := get_ext_bit_len_spec e he
  set L := EUID.get_ext_bit_len e with hLdef
  unfold EUID.create_with_timestamp_and_extension EUID.TIMESTAMP_BITMASK EUID.EXT_DATA_BITMASK
  dsimp only
  rw [if_neg (by omega), if_neg (by omega), and_shift_mask]
  simp only [Nat.shiftLeft_eq]
  have hrr : r0 % 2 ^ (15 - L) < 2 ^ (15 - L) := Nat.mod_lt _ (Nat.two_pow_pos _)
  have h19 : (2 : Nat) ^ (15 - L) * 2 ^ (4 + L) = 2 ^ 19 := by
    rw [← pow_add]
    congr 1
    omega
  have h4L : (2 : Nat) ^ 4 * 2 ^ L = 2 ^ (4 + L) := by
    rw [← pow_add]
  have e1 : t * 2 ^ 19 ||| (r0 % 2 ^ (15 - L)) * 2 ^ (4 + L)
      = t * 2 ^ 19 + (r0 % 2 ^ (15 - L)) * 2 ^ (4 + L) := by
    apply lor_eq_add 19
    · exact ⟨t, by ring⟩
    · calc (r0 % 2 ^ (15 - L)) * 2 ^ (4 + L) < 2 ^ (15 - L) * 2 ^ (4 + L) :=
            mul_lt_mul_of_pos_right hrr (Nat.two_pow_pos _)
      _ = 2 ^ 19 := h19
  have e2 : t * 2 ^ 19 + (r0 % 2 ^ (15 - L)) * 2 ^ (4 + L) ||| e * 2 ^ 4
      = t * 2 ^ 19 + (r0 % 2 ^ (15 - L)) * 2 ^ (4 + L) + e * 2 ^ 4 := by
    apply lor_eq_add (4 + L)
    · apply Nat.dvd_add
      · exact ⟨t * 2 ^ (15 - L), by rw [← h19]; ring⟩
      · exact ⟨r0 % 2 ^ (15 - L), by ring⟩
    · calc e * 2 ^ 4 < 2 ^ L * 2 ^ 4 := mul_lt_mul_of_pos_right hLe (by norm_num)
      _ = 2 ^ (4 + L) := by rw [← pow_add, Nat.add_comm]
  have e3 : t * 2 ^ 19 + (r0 % 2 ^ (15 - L)) * 2 ^ (4 + L) + e * 2 ^ 4 ||| L
      = t * 2 ^ 19 + (r0 % 2 ^ (15 - L)) * 2 ^ (4 + L) + e * 2 ^ 4 + L := by
    apply lor_eq_add 4
    · apply Nat.dvd_add
      · apply Nat.dvd_add
        · exact ⟨t * 2 ^ 15, by norm_num; ring⟩
        · exact ⟨(r0 % 2 ^ (15 - L)) * 2 ^ L, by rw [← h4L]; ring⟩
      · exact ⟨e, by ring⟩
    · omega
  rw [e1, e2, e3]

theorem hi_fields (t e rr L : Nat) (ht : t ≤ 0x1fffffffffff) (hL1 : 1 ≤ L) (hL15 : L ≤ 15)
    (hLe : e < 2 ^ L) (hrr : rr < 2 ^ (15 - L)) :
    ((t * 2 ^ 19 + rr * 2 ^ (4 + L) + e * 2 ^ 4 + L) >>> 19) &&& 0x1fffffffffff = t ∧
    (t * 2 ^ 19 + rr * 2 ^ (4 + L) + e * 2 ^ 4 + L) &&& 0xf = L ∧
    ((t * 2 ^ 19 + rr * 2 ^ (4 + L) + e * 2 ^ 4 + L) >>> 4) % 2 ^ L = e := by
  rw [and_mask45, and_15]
  refine ⟨?_, ?_, ?_⟩ <;> (interval_cases L <;> omega)

/-- C3 (confirmed): binary round-trip of the packed fields.  For every
timestamp `t` within the timestamp mask, every extension `e ≤ 32767` and
every random input, `create_with_timestamp_and_extension t e` yields an
identifier with `timestamp = t` and `extension = some e`; and for every
`e > 32767` creation fails with no identifier produced. -/
theorem pack_fields_roundtrip :
    (∀ t e r0 r1, t ≤ EUID.TIMESTAMP_BITMASK → e ≤ 32767 →
      ∃ x, EUID.create_with_timestamp_and_extension t e r0 r1 = some x ∧
        x.timestamp = t ∧ x.extension = some e) ∧
    (∀ t e r0 r1, 32767 < e →
      EUID.create_with_timestamp_and_extension t e r0 r1 = none) := by
  constructor
  · intro t e r0 r1 ht he
    have ht' : t ≤ 0x1fffffffffff := ht
    obtain ⟨hL1, hL15, hLe, -⟩ := get_ext_bit_len_spec e he
    have hrr : r0 % 2 ^ (15 - EUID.get_ext_bit_len e) < 2 ^ (15 - EUID.get_ext_bit_len e) :=
      Nat.mod_lt _ (Nat.two_pow_pos _)
    obtain ⟨f1, f2, f3⟩ := hi_fields t e (r0 % 2 ^ (15 - EUID.get_ext_bit_len e))
      (EUID.get_ext_bit_len e) ht' hL1 hL15 hLe hrr
    rw [cwtae_eq t e r0 r1 ht' he]
    refine ⟨_, rfl, ?_, ?_⟩
    · unfold EUID.timestamp EUID.TIMESTAMP_BITMASK
      exact f1
    · unfold EUID.extension EUID.EXT_LEN_BITMASK
      dsimp only
      rw [f2, if_neg (by omega), and_shift_mask, f3]
  · intro t e r0 r1 he
    unfold EUID.create_with_timestamp_and_extension EUID.EXT_DATA_BITMASK
    dsimp only
    split_ifs <;> rfl

/-- Witness for C3 at `t = 3`, `e = 5`, random words `0`. -/
theorem pack_fields_roundtrip_witness :
    ∃ x, EUID.create_with_timestamp_and_extension 3 5 0 0 = some x ∧
      x.timestamp = 3 ∧ x.extension = some 5 :=
  pack_fields_roundtrip.1 3 5 0 0 (by decide) (by norm_num)

/-! ## No version field -/

/-- C9 counterexample: there is no 3-bit format version field holding a
single defined value: the three least-significant bits of `hi` (where the
spec's layout table places the version) differ between two packed
identifiers — they are part of the extension-length field. -/
theorem no_version_field_counterexample :
    (EUID.create_with_timestamp_and_extension 0 1 0 0).map (fun x => x.hi &&& 0x7) ≠
    (EUID.create_with_timestamp_and_extension 0 7 0 0).map (fun x => x.hi &&& 0x7) := by
  decide

/-- C9 (corrected): the packed identifier carries no version field: the
least-significant 4 bits of `hi` hold the extension length written by
`create_with_timestamp_and_extension` (`get_ext_bit_len` of the extension),
not a constant version value.  Unpacking is total: for every `(hi, lo)`
pair, `timestamp` yields a value within the 45-bit mask and `extension`
yields a field value (`none` exactly when the length nibble is zero). -/
theorem unpack_total_no_version :
    (∀ hi lo : Nat, EUID.timestamp ⟨hi, lo⟩ ≤ EUID.TIMESTAMP_BITMASK ∧
      (EUID.extension ⟨hi, lo⟩ = none ↔ hi &&& 0xf = 0)) ∧
    (∀ t e r0 r1 x, EUID.create_with_timestamp_and_extension t e r0 r1 = some x →
      x.hi &&& EUID.EXT_LEN_BITMASK = EUID.get_ext_bit_len e) := by
  constructor
  · intro hi lo
    constructor
    · unfold EUID.timestamp
      exact Nat.and_le_right
    · unfold EUID.extension EUID.EXT_LEN_BITMASK
      dsimp only
      split_ifs with h
      · exact ⟨fun _ => h, fun _ => rfl⟩
      · exact ⟨fun hc => by simp_all, fun hc => absurd hc h⟩
  · intro t e r0 r1 x h
    by_cases ht : t ≤ 0x1fffffffffff
    · by_cases he : e ≤ 32767
      · rw [cwtae_eq t e r0 r1 ht he] at h
        obtain ⟨hL1, hL15, hLe, -⟩ := get_ext_bit_len_spec e he
        have hrr : r0 % 2 ^ (15 - EUID.get_ext_bit_len e)
            < 2 ^ (15 - EUID.get_ext_bit_len e) := Nat.mod_lt _ (Nat.two_pow_pos _)
        obtain ⟨f1, f2, f3⟩ := hi_fields t e (r0 % 2 ^ (15 - EUID.get_ext_bit_len e))
          (EUID.get_ext_bit_len e) ht hL1 hL15 hLe hrr
        cases h
        unfold EUID.EXT_LEN_BITMASK
        exact f2
      · exfalso
        have hnone := pack_fields_roundtrip.2 t e r0 r1 (by omega)
        rw [hnone] at h
        exact Option.noConfusion h
    · exfalso
      unfold EUID.create_with_timestamp_and_extension EUID.TIMESTAMP_BITMASK at h
      rw [if_pos (by omega)] at h
      exact Option.noConfusion h

/-- Witness for C9's amended theorem at `hi = 37`, `lo = 11` and a packed
identifier at `t = 0`, `e = 1`. -/
theorem unpack_total_no_version_witness :
    (EUID.timestamp ⟨37, 11⟩ ≤ EUID.TIMESTAMP_BITMASK ∧
      (EUID.extension ⟨37, 11⟩ = none ↔ 37 &&& 0xf = 0)) ∧
    (EUID.create_with_timestamp_and_extension 0 1 0 0 = some ⟨17, 0⟩ →
      (17 : Nat) &&& EUID.EXT_LEN_BITMASK = EUID.get_ext_bit_len 1) :=
  ⟨unpack_total_no_version.1 37 11, fun h => unpack_total_no_version.2 0 1 0 0 ⟨17, 0⟩ h⟩

/-! ## Monotonic successor -/

/-- C4 (confirmed): same-millisecond successor.  When the clock reading
equals the identifier's timestamp, `next` returns `none` if and only if the
upper 32 bits of `lo` are `0xffffffff`; otherwise it returns a strictly
larger identifier under the `(hi, lo)` ordering, for any value of the
refreshed low 32 random bits — so repeated `next` calls within one
millisecond are strictly increasing until exhaustion. -/
theorem next_same_millisecond (x : EUID) (now rnd32 r0 r1 : Nat)
    (hlo : x.lo < 2 ^ 64) (hr : rnd32 < 2 ^ 32) (hnow : now = x.timestamp) :
    (EUID.next x now rnd32 r0 r1 = none ↔ x.lo >>> 32 = 0xffffffff) ∧
    (∀ y, EUID.next x now rnd32 r0 r1 = some y → EUID.cmp x y = .lt) := by
  unfold EUID.next
  rw [if_pos hnow]
  dsimp only
  split_ifs with h
  · exact ⟨⟨fun _ => h, fun _ => rfl⟩, fun y hy => absurd hy (by simp)⟩
  · constructor
    · exact ⟨fun hc => by simp_all, fun hc => absurd hc h⟩
    · intro y hy
      have hy' : y = ⟨x.hi, ((x.lo >>> 32 + 1) <<< 32) ||| rnd32⟩ := by
        cases hy
        rfl
      subst hy'
      have hlor : ((x.lo >>> 32 + 1) <<< 32) ||| rnd32
          = (x.lo >>> 32 + 1) * 2 ^ 32 + rnd32 := by
        rw [Nat.shiftLeft_eq]
        exact lor_eq_add 32 ⟨x.lo >>> 32 + 1, by ring⟩ hr
      unfold EUID.cmp
      dsimp only
      rw [if_neg (by simp), hlor]
      have hlt : x.lo < (x.lo >>> 32 + 1) * 2 ^ 32 + rnd32 := by omega
      rw [if_pos (by omega), if_neg (by omega)]

/-- Witness for C4 at `x = ⟨0, 5⟩`, clock reading `0`, fresh low bits `7`. -/
theorem next_same_millisecond_witness :
    (EUID.next ⟨0, 5⟩ 0 7 0 0 = none ↔ (5 : Nat) >>> 32 = 0xffffffff) ∧
    (∀ y, EUID.next ⟨0, 5⟩ 0 7 0 0 = some y → EUID.cmp ⟨0, 5⟩ y = .lt) :=
  next_same_millisecond ⟨0, 5⟩ 0 7 0 0 (by norm_num) (by norm_num) (by decide)

/-! ## Bit-level reassembly of the 5-bit groups -/

set_option maxHeartbeats 3200000 in
theorem to_u64_digits (d0 d1 d2 d3 d4 d5 d6 d7 d8 d9 d10 d11 d12 d13 d14 d15 d16 d17 d18 d19 d20 d21 d22 d23 d24 d25 d26 : Nat)
    (h0 : d0 < 32) (h1 : d1 < 32) (h2 : d2 < 32) (h3 : d3 < 32) (h4 : d4 < 32) (h5 : d5 < 32) (h6 : d6 < 32) (h7 : d7 < 32) (h8 : d8 < 32) (h9 : d9 < 32) (h10 : d10 < 32) (h11 : d11 < 32) (h12 : d12 < 32) (h13 : d13 < 32) (h14 : d14 < 32) (h15 : d15 < 32) (h16 : d16 < 32) (h17 : d17 < 32) (h18 : d18 < 32) (h19 : d19 < 32) (h20 : d20 < 32) (h21 : d21 < 32) (h22 : d22 < 32) (h23 : d23 < 32) (h24 : d24 < 32) (h25 : d25 < 32) :
    base32.to_u64_slice [d0, d1, d2, d3, d4, d5, d6, d7, d8, d9, d10, d11, d12, d13, d14, d15, d16, d17, d18, d19, d20, d21, d22, d23, d24, d25, d26] =
      (d0 * 2 ^ 59 + d1 * 2 ^ 54 + d2 * 2 ^ 49 + d3 * 2 ^ 44 + d4 * 2 ^ 39 + d5 * 2 ^ 34 + d6 * 2 ^ 29 + d7 * 2 ^ 24 + d8 * 2 ^ 19 + d9 * 2 ^ 14 + d10 * 2 ^ 9 + d11 * 2 ^ 4 + d12 >>> 1 % 16,
       d12 % 2 * 2 ^ 63 + d13 * 2 ^ 58 + d14 * 2 ^ 53 + d15 * 2 ^ 48 + d16 * 2 ^ 43 + d17 * 2 ^ 38 + d18 * 2 ^ 33 + d19 * 2 ^ 28 + d20 * 2 ^ 23 + d21 * 2 ^ 18 + d22 * 2 ^ 13 + d23 * 2 ^ 8 + d24 * 2 ^ 3 + d25 >>> 2) := by
  show (d0 <<< 59 ||| d1 <<< 54 ||| d2 <<< 49 ||| d3 <<< 44 ||| d4 <<< 39 ||| d5 <<< 34 ||| d6 <<< 29 ||| d7 <<< 24 ||| d8 <<< 19 ||| d9 <<< 14 ||| d10 <<< 9 ||| d11 <<< 4 ||| (d12 >>> 1) &&& 0xf,
      (d13 <<< 58 ||| (d12 &&& 0x1) <<< 63) ||| d14 <<< 53 ||| d15 <<< 48 ||| d16 <<< 43 ||| d17 <<< 38 ||| d18 <<< 33 ||| d19 <<< 28 ||| d20 <<< 23 ||| d21 <<< 18 ||| d22 <<< 13 ||| d23 <<< 8 ||| d24 <<< 3 ||| d25 >>> 2) = _
  simp only [Nat.shiftLeft_eq]
  rw [and_15, and_1]
  have ehi1 : d0 * 2 ^ 59 ||| d1 * 2 ^ 54 = d0 * 2 ^ 59 + d1 * 2 ^ 54 := by
    apply lor_eq_add 59
    · exact (Dvd.dvd.mul_left (pow_dvd_pow 2 (by norm_num)) _)
    · omega
  have ehi2 : d0 * 2 ^ 59 + d1 * 2 ^ 54 ||| d2 * 2 ^ 49 = d0 * 2 ^ 59 + d1 * 2 ^ 54 + d2 * 2 ^ 49 := by
    apply lor_eq_add 54
    · exact (Nat.dvd_add (Dvd.dvd.mul_left (pow_dvd_pow 2 (by norm_num)) _) (Dvd.dvd.mul_left (pow_dvd_pow 2 (by norm_num)) _))
    · omega
  have ehi3 : d0 * 2 ^ 59 + d1 * 2 ^ 54 + d2 * 2 ^ 49 ||| d3 * 2 ^ 44 = d0 * 2 ^ 59 + d1 * 2 ^ 54 + d2 * 2 ^ 49 + d3 * 2 ^ 44 := by
    apply lor_eq_add 49
    · exact (Nat.dvd_add (Nat.dvd_add (Dvd.dvd.mul_left (pow_dvd_pow 2 (by norm_num)) _) (Dvd.dvd.mul_left (pow_dvd_pow 2 (by norm_num)) _)) (Dvd.dvd.mul_left (pow_dvd_pow 2 (by norm_num)) _))
    · omega
  have ehi4 : d0 * 2 ^ 59 + d1 * 2 ^ 54 + d2 * 2 ^ 49 + d3 * 2 ^ 44 ||| d4 * 2 ^ 39 = d0 * 2 ^ 59 + d1 * 2 ^ 54 + d2 * 2 ^ 49 + d3 * 2 ^ 44 + d4 * 2 ^ 39 := by
    apply lor_eq_add 44
    · exact (Nat.dvd_add (Nat.dvd_add (Nat.dvd_add (Dvd.dvd.mul_left (pow_dvd_pow 2 (by norm_num)) _) (Dvd.dvd.mul_left (pow_dvd_pow 2 (by norm_num)) _)) (Dvd.dvd.mul_left (pow_dvd_pow 2 (by norm_num)) _)) (Dvd.dvd.mul_left (pow_dvd_pow 2 (by norm_num)) _))
    · omega
  have ehi5 : d0 * 2 ^ 59 + d1 * 2 ^ 54 + d2 * 2 ^ 49 + d3 * 2 ^ 44 + d4 * 2 ^ 39 ||| d5 * 2 ^ 34 = d0 * 2 ^ 59 + d1 * 2 ^ 54 + d2 * 2 ^ 49 + d3 * 2 ^ 44 + d4 * 2 ^ 39 + d5 * 2 ^ 34 := by
    apply lor_eq_add 39
    · exact (Nat.dvd_add (Nat.dvd_add (Nat.dvd_add (Nat.dvd_add (Dvd.dvd.mul_left (pow_dvd_pow 2 (by norm_num)) _) (Dvd.dvd.mul_left (pow_dvd_pow 2 (by norm_num)) _)) (Dvd.dvd.mul_left (pow_dvd_pow 2 (by norm_num)) _)) (Dvd.dvd.mul_left (pow_dvd_pow 2 (by norm_num)) _)) (Dvd.dvd.mul_left (pow_dvd_pow 2 (by norm_num)) _))
    · omega
  have ehi6 : d0 * 2 ^ 59 + d1 * 2 ^ 54 + d2 * 2 ^ 49 + d3 * 2 ^ 44 + d4 * 2 ^ 39 + d5 * 2 ^ 34 ||| d6 * 2 ^ 29 = d0 * 2 ^ 59 + d1 * 2 ^ 54 + d2 * 2 ^ 49 + d3 * 2 ^ 44 + d4 * 2 ^ 39 + d5 * 2 ^ 34 + d6 * 2 ^ 29 := by
    apply lor_eq_add 34
    · exact (Nat.dvd_add (Nat.dvd_add (Nat.dvd_add (Nat.dvd_add (Nat.dvd_add (Dvd.dvd.mul_left (pow_dvd_pow 2 (by norm_num)) _) (Dvd.dvd.mul_left (pow_dvd_pow 2 (by norm_num)) _)) (Dvd.dvd.mul_left (pow_dvd_pow 2 (by norm_num)) _)) (Dvd.dvd.mul_left (pow_dvd_pow 2 (by norm_num)) _)) (Dvd.dvd.mul_left (pow_dvd_pow 2 (by norm_num)) _)) (Dvd.dvd.mul_left (pow_dvd_pow 2 (by norm_num)) _))
    · omega
  have ehi7 : d0 * 2 ^ 59 + d1 * 2 ^ 54 + d2 * 2 ^ 49 + d3 * 2 ^ 44 + d4 * 2 ^ 39 + d5 * 2 ^ 34 + d6 * 2 ^ 29 ||| d7 * 2 ^ 24 = d0 * 2 ^ 59 + d1 * 2 ^ 54 + d2 * 2 ^ 49 + d3 * 2 ^ 44 + d4 * 2 ^ 39 + d5 * 2 ^ 34 + d6 * 2 ^ 29 + d7 * 2 ^ 24 := by
    apply lor_eq_add 29
    · exact (Nat.dvd_add (Nat.dvd_add (Nat.dvd_add (Nat.dvd_add (Nat.dvd_add (Nat.dvd_add (Dvd.dvd.mul_left (pow_dvd_pow 2 (by norm_num)) _) (Dvd.dvd.mul_left (pow_dvd_pow 2 (by norm_num)) _)) (Dvd.dvd.mul_left (pow_dvd_pow 2 (by norm_num)) _)) (Dvd.dvd.mul_left (pow_dvd_pow 2 (by norm_num)) _)) (Dvd.dvd.mul_left (pow_dvd_pow 2 (by norm_num)) _)) (Dvd.dvd.mul_left (pow_dvd_pow 2 (by norm_num)) _)) (Dvd.dvd.mul_left (pow_dvd_pow 2 (by norm_num)) _))
    · omega
  have ehi8 : d0 * 2 ^ 59 + d1 * 2 ^ 54 + d2 * 2 ^ 49 + d3 * 2 ^ 44 + d4 * 2 ^ 39 + d5 * 2 ^ 34 + d6 * 2 ^ 29 + d7 * 2 ^ 24 ||| d8 * 2 ^ 19 = d0 * 2 ^ 59 + d1 * 2 ^ 54 + d2 * 2 ^ 49 + d3 * 2 ^ 44 + d4 * 2 ^ 39 + d5 * 2 ^ 34 + d6 * 2 ^ 29 + d7 * 2 ^ 24 + d8 * 2 ^ 19 := by
    apply lor_eq_add 24
    · exact (Nat.dvd_add (Nat.dvd_add (Nat.dvd_add (Nat.dvd_add (Nat.dvd_add (Nat.dvd_add (Nat.dvd_add (Dvd.dvd.mul_left (pow_dvd_pow 2 (by norm_num)) _) (Dvd.dvd.mul_left (pow_dvd_pow 2 (by norm_num)) _)) (Dvd.dvd.mul_left (pow_dvd_pow 2 (by norm_num)) _)) (Dvd.dvd.mul_left (pow_dvd_pow 2 (by norm_num)) _)) (Dvd.dvd.mul_left (pow_dvd_pow 2 (by norm_num)) _)) (Dvd.dvd.mul_left (pow_dvd_pow 2 (by norm_num)) _)) (Dvd.dvd.mul_left (pow_dvd_pow 2 (by norm_num)) _)) (Dvd.dvd.mul_left (pow_dvd_pow 2 (by norm_num)) _))
    · omega
  have ehi9 : d0 * 2 ^ 59 + d1 * 2 ^ 54 + d2 * 2 ^ 49 + d3 * 2 ^ 44 + d4 * 2 ^ 39 + d5 * 2 ^ 34 + d6 * 2 ^ 29 + d7 * 2 ^ 24 + d8 * 2 ^ 19 ||| d9 * 2 ^ 14 = d0 * 2 ^ 59 + d1 * 2 ^ 54 + d2 * 2 ^ 49 + d3 * 2 ^ 44 + d4 * 2 ^ 39 + d5 * 2 ^ 34 + d6 * 2 ^ 29 + d7 * 2 ^ 24 + d8 * 2 ^ 19 + d9 * 2 ^ 14 := by
    apply lor_eq_add 19
    · exact (Nat.dvd_add (Nat.dvd_add (Nat.dvd_add (Nat.dvd_add (Nat.dvd_add (Nat.dvd_add (Nat.dvd_add (Nat.dvd_add (Dvd.dvd.mul_left (pow_dvd_pow 2 (by norm_num)) _) (Dvd.dvd.mul_left (pow_dvd_pow 2 (by norm_num)) _)) (Dvd.dvd.mul_left (pow_dvd_pow 2 (by norm_num)) _)) (Dvd.dvd.mul_left (pow_dvd_pow 2 (by norm_num)) _)) (Dvd.dvd.mul_left (pow_dvd_pow 2 (by norm_num)) _)) (Dvd.dvd.mul_left (pow_dvd_pow 2 (by norm_num)) _)) (Dvd.dvd.mul_left (pow_dvd_pow 2 (by norm_num)) _)) (Dvd.dvd.mul_left (pow_dvd_pow 2 (by norm_num)) _)) (Dvd.dvd.mul_left (pow_dvd_pow 2 (by norm_num)) _))
    · omega
  have ehi10 : d0 * 2 ^ 59 + d1 * 2 ^ 54 + d2 * 2 ^ 49 + d3 * 2 ^ 44 + d4 * 2 ^ 39 + d5 * 2 ^ 34 + d6 * 2 ^ 29 + d7 * 2 ^ 24 + d8 * 2 ^ 19 + d9 * 2 ^ 14 ||| d10 * 2 ^ 9 = d0 * 2 ^ 59 + d1 * 2 ^ 54 + d2 * 2 ^ 49 + d3 * 2 ^ 44 + d4 * 2 ^ 39 + d5 * 2 ^ 34 + d6 * 2 ^ 29 + d7 * 2 ^ 24 + d8 * 2 ^ 19 + d9 * 2 ^ 14 + d10 * 2 ^ 9 := by
    apply lor_eq_add 14
    · exact (Nat.dvd_add (Nat.dvd_add (Nat.dvd_add (Nat.dvd_add (Nat.dvd_add (Nat.dvd_add (Nat.dvd_add (Nat.dvd_add (Nat.dvd_add (Dvd.dvd.mul_left (pow_dvd_pow 2 (by norm_num)) _) (Dvd.dvd.mul_left (pow_dvd_pow 2 (by norm_num)) _)) (Dvd.dvd.mul_left (pow_dvd_pow 2 (by norm_num)) _)) (Dvd.dvd.mul_left (pow_dvd_pow 2 (by norm_num)) _)) (Dvd.dvd.mul_left (pow_dvd_pow 2 (by norm_num)) _)) (Dvd.dvd.mul_left (pow_dvd_pow 2 (by norm_num)) _)) (Dvd.dvd.mul_left (pow_dvd_pow 2 (by norm_num)) _)) (Dvd.dvd.mul_left (pow_dvd_pow 2 (by norm_num)) _)) (Dvd.dvd.mul_left (pow_dvd_pow 2 (by norm_num)) _)) (Dvd.dvd.mul_left (pow_dvd_pow 2 (by norm_num)) _))
    · omega
  have ehi11 : d0 * 2 ^ 59 + d1 * 2 ^ 54 + d2 * 2 ^ 49 + d3 * 2 ^ 44 + d4 * 2 ^ 39 + d5 * 2 ^ 34 + d6 * 2 ^ 29 + d7 * 2 ^ 24 + d8 * 2 ^ 19 + d9 * 2 ^ 14 + d10 * 2 ^ 9 ||| d11 * 2 ^ 4 = d0 * 2 ^ 59 + d1 * 2 ^ 54 + d2 * 2 ^ 49 + d3 * 2 ^ 44 + d4 * 2 ^ 39 + d5 * 2 ^ 34 + d6 * 2 ^ 29 + d7 * 2 ^ 24 + d8 * 2 ^ 19 + d9 * 2 ^ 14 + d10 * 2 ^ 9 + d11 * 2 ^ 4 := by
    apply lor_eq_add 9
    · exact (Nat.dvd_add (Nat.dvd_add (Nat.dvd_add (Nat.dvd_add (Nat.dvd_add (Nat.dvd_add (Nat.dvd_add (Nat.dvd_add (Nat.dvd_add (Nat.dvd_add (Dvd.dvd.mul_left (pow_dvd_pow 2 (by norm_num)) _) (Dvd.dvd.mul_left (pow_dvd_pow 2 (by norm_num)) _)) (Dvd.dvd.mul_left (pow_dvd_pow 2 (by norm_num)) _)) (Dvd.dvd.mul_left (pow_dvd_pow 2 (by norm_num)) _)) (Dvd.dvd.mul_left (pow_dvd_pow 2 (by norm_num)) _)) (Dvd.dvd.mul_left (pow_dvd_pow 2 (by norm_num)) _)) (Dvd.dvd.mul_left (pow_dvd_pow 2 (by norm_num)) _)) (Dvd.dvd.mul_left (pow_dvd_pow 2 (by norm_num)) _)) (Dvd.dvd.mul_left (pow_dvd_pow 2 (by norm_num)) _)) (Dvd.dvd.mul_left (pow_dvd_pow 2 (by norm_num)) _)) (Dvd.dvd.mul_left (pow_dvd_pow 2 (by norm_num)) _))
    · omega
  have ehi12 : d0 * 2 ^ 59 + d1 * 2 ^ 54 + d2 * 2 ^ 49 + d3 * 2 ^ 44 + d4 * 2 ^ 39 + d5 * 2 ^ 34 + d6 * 2 ^ 29 + d7 * 2 ^ 24 + d8 * 2 ^ 19 + d9 * 2 ^ 14 + d10 * 2 ^ 9 + d11 * 2 ^ 4 ||| d12 >>> 1 % 16 = d0 * 2 ^ 59 + d1 * 2 ^ 54 + d2 * 2 ^ 49 + d3 * 2 ^ 44 + d4 * 2 ^ 39 + d5 * 2 ^ 34 + d6 * 2 ^ 29 + d7 * 2 ^ 24 + d8 * 2 ^ 19 + d9 * 2 ^ 14 + d10 * 2 ^ 9 + d11 * 2 ^ 4 + d12 >>> 1 % 16 := by
    apply lor_eq_add 4
    · exact (Nat.dvd_add (Nat.dvd_add (Nat.dvd_add (Nat.dvd_add (Nat.dvd_add (Nat.dvd_add (Nat.dvd_add (Nat.dvd_add (Nat.dvd_add (Nat.dvd_add (Nat.dvd_add (Dvd.dvd.mul_left (pow_dvd_pow 2 (by norm_num)) _) (Dvd.dvd.mul_left (pow_dvd_pow 2 (by norm_num)) _)) (Dvd.dvd.mul_left (pow_dvd_pow 2 (by norm_num)) _)) (Dvd.dvd.mul_left (pow_dvd_pow 2 (by norm_num)) _)) (Dvd.dvd.mul_left (pow_dvd_pow 2 (by norm_num)) _)) (Dvd.dvd.mul_left (pow_dvd_pow 2 (by norm_num)) _)) (Dvd.dvd.mul_left (pow_dvd_pow 2 (by norm_num)) _)) (Dvd.dvd.mul_left (pow_dvd_pow 2 (by norm_num)) _)) (Dvd.dvd.mul_left (pow_dvd_pow 2 (by norm_num)) _)) (Dvd.dvd.mul_left (pow_dvd_pow 2 (by norm_num)) _)) (Dvd.dvd.mul_left (pow_dvd_pow 2 (by norm_num)) _)) (Dvd.dvd.mul_left (pow_dvd_pow 2 (by norm_num)) _))
    · omega
  have elo0 : d13 * 2 ^ 58 ||| d12 % 2 * 2 ^ 63 = d12 % 2 * 2 ^ 63 + d13 * 2 ^ 58 := by
    rw [Nat.lor_comm]
    apply lor_eq_add 63
    · exact (Dvd.dvd.mul_left (pow_dvd_pow 2 (by norm_num)) _)
    · omega
  have elo1 : d12 % 2 * 2 ^ 63 + d13 * 2 ^ 58 ||| d14 * 2 ^ 53 = d12 % 2 * 2 ^ 63 + d13 * 2 ^ 58 + d14 * 2 ^ 53 := by
    apply lor_eq_add 58
    · exact (Nat.dvd_add (Dvd.dvd.mul_left (pow_dvd_pow 2 (by norm_num)) _) (Dvd.dvd.mul_left (pow_dvd_pow 2 (by norm_num)) _))
    · omega
  have elo2 : d12 % 2 * 2 ^ 63 + d13 * 2 ^ 58 + d14 * 2 ^ 53 ||| d15 * 2 ^ 48 = d12 % 2 * 2 ^ 63 + d13 * 2 ^ 58 + d14 * 2 ^ 53 + d15 * 2 ^ 48 := by
    apply lor_eq_add 53
    · exact (Nat.dvd_add (Nat.dvd_add (Dvd.dvd.mul_left (pow_dvd_pow 2 (by norm_num)) _) (Dvd.dvd.mul_left (pow_dvd_pow 2 (by norm_num)) _)) (Dvd.dvd.mul_left (pow_dvd_pow 2 (by norm_num)) _))
    · omega
  have elo3 : d12 % 2 * 2 ^ 63 + d13 * 2 ^ 58 + d14 * 2 ^ 53 + d15 * 2 ^ 48 ||| d16 * 2 ^ 43 = d12 % 2 * 2 ^ 63 + d13 * 2 ^ 58 + d14 * 2 ^ 53 + d15 * 2 ^ 48 + d16 * 2 ^ 43 := by
    apply lor_eq_add 48
    · exact (Nat.dvd_add (Nat.dvd_add (Nat.dvd_add (Dvd.dvd.mul_left (pow_dvd_pow 2 (by norm_num)) _) (Dvd.dvd.mul_left (pow_dvd_pow 2 (by norm_num)) _)) (Dvd.dvd.mul_left (pow_dvd_pow 2 (by norm_num)) _)) (Dvd.dvd.mul_left (pow_dvd_pow 2 (by norm_num)) _))
    · omega
  have elo4 : d12 % 2 * 2 ^ 63 + d13 * 2 ^ 58 + d14 * 2 ^ 53 + d15 * 2 ^ 48 + d16 * 2 ^ 43 ||| d17 * 2 ^ 38 = d12 % 2 * 2 ^ 63 + d13 * 2 ^ 58 + d14 * 2 ^ 53 + d15 * 2 ^ 48 + d16 * 2 ^ 43 + d17 * 2 ^ 38 := by
    apply lor_eq_add 43
    · exact (Nat.dvd_add (Nat.dvd_add (Nat.dvd_add (Nat.dvd_add (Dvd.dvd.mul_left (pow_dvd_pow 2 (by norm_num)) _) (Dvd.dvd.mul_left (pow_dvd_pow 2 (by norm_num)) _)) (Dvd.dvd.mul_left (pow_dvd_pow 2 (by norm_num)) _)) (Dvd.dvd.mul_left (pow_dvd_pow 2 (by norm_num)) _)) (Dvd.dvd.mul_left (pow_dvd_pow 2 (by norm_num)) _))
    · omega
  have elo5 : d12 % 2 * 2 ^ 63 + d13 * 2 ^ 58 + d14 * 2 ^ 53 + d15 * 2 ^ 48 + d16 * 2 ^ 43 + d17 * 2 ^ 38 ||| d18 * 2 ^ 33 = d12 % 2 * 2 ^ 63 + d13 * 2 ^ 58 + d14 * 2 ^ 53 + d15 * 2 ^ 48 + d16 * 2 ^ 43 + d17 * 2 ^ 38 + d18 * 2 ^ 33 := by
    apply lor_eq_add 38
    · exact (Nat.dvd_add (Nat.dvd_add (Nat.dvd_add (Nat.dvd_add (Nat.dvd_add (Dvd.dvd.mul_left (pow_dvd_pow 2 (by norm_num)) _) (Dvd.dvd.mul_left (pow_dvd_pow 2 (by norm_num)) _)) (Dvd.dvd.mul_left (pow_dvd_pow 2 (by norm_num)) _)) (Dvd.dvd.mul_left (pow_dvd_pow 2 (by norm_num)) _)) (Dvd.dvd.mul_left (pow_dvd_pow 2 (by norm_num)) _)) (Dvd.dvd.mul_left (pow_dvd_pow 2 (by norm_num)) _))
    · omega
  have elo6 : d12 % 2 * 2 ^ 63 + d13 * 2 ^ 58 + d14 * 2 ^ 53 + d15 * 2 ^ 48 + d16 * 2 ^ 43 + d17 * 2 ^ 38 + d18 * 2 ^ 33 ||| d19 * 2 ^ 28 = d12 % 2 * 2 ^ 63 + d13 * 2 ^ 58 + d14 * 2 ^ 53 + d15 * 2 ^ 48 + d16 * 2 ^ 43 + d17 * 2 ^ 38 + d18 * 2 ^ 33 + d19 * 2 ^ 28 := by
    apply lor_eq_add 33
    · exact (Nat.dvd_add (Nat.dvd_add (Nat.dvd_add (Nat.dvd_add (Nat.dvd_add (Nat.dvd_add (Dvd.dvd.mul_left (pow_dvd_pow 2 (by norm_num)) _) (Dvd.dvd.mul_left (pow_dvd_pow 2 (by norm_num)) _)) (Dvd.dvd.mul_left (pow_dvd_pow 2 (by norm_num)) _)) (Dvd.dvd.mul_left (pow_dvd_pow 2 (by norm_num)) _)) (Dvd.dvd.mul_left (pow_dvd_pow 2 (by norm_num)) _)) (Dvd.dvd.mul_left (pow_dvd_pow 2 (by norm_num)) _)) (Dvd.dvd.mul_left (pow_dvd_pow 2 (by norm_num)) _))
    · omega
  have elo7 : d12 % 2 * 2 ^ 63 + d13 * 2 ^ 58 + d14 * 2 ^ 53 + d15 * 2 ^ 48 + d16 * 2 ^ 43 + d17 * 2 ^ 38 + d18 * 2 ^ 33 + d19 * 2 ^ 28 ||| d20 * 2 ^ 23 = d12 % 2 * 2 ^ 63 + d13 * 2 ^ 58 + d14 * 2 ^ 53 + d15 * 2 ^ 48 + d16 * 2 ^ 43 + d17 * 2 ^ 38 + d18 * 2 ^ 33 + d19 * 2 ^ 28 + d20 * 2 ^ 23 := by
    apply lor_eq_add 28
    · exact (Nat.dvd_add (Nat.dvd_add (Nat.dvd_add (Nat.dvd_add (Nat.dvd_add (Nat.dvd_add (Nat.dvd_add (Dvd.dvd.mul_left (pow_dvd_pow 2 (by norm_num)) _) (Dvd.dvd.mul_left (pow_dvd_pow 2 (by norm_num)) _)) (Dvd.dvd.mul_left (pow_dvd_pow 2 (by norm_num)) _)) (Dvd.dvd.mul_left (pow_dvd_pow 2 (by norm_num)) _)) (Dvd.dvd.mul_left (pow_dvd_pow 2 (by norm_num)) _)) (Dvd.dvd.mul_left (pow_dvd_pow 2 (by norm_num)) _)) (Dvd.dvd.mul_left (pow_dvd_pow 2 (by norm_num)) _)) (Dvd.dvd.mul_left (pow_dvd_pow 2 (by norm_num)) _))
    · omega
  have elo8 : d12 % 2 * 2 ^ 63 + d13 * 2 ^ 58 + d14 * 2 ^ 53 + d15 * 2 ^ 48 + d16 * 2 ^ 43 + d17 * 2 ^ 38 + d18 * 2 ^ 33 + d19 * 2 ^ 28 + d20 * 2 ^ 23 ||| d21 * 2 ^ 18 = d12 % 2 * 2 ^ 63 + d13 * 2 ^ 58 + d14 * 2 ^ 53 + d15 * 2 ^ 48 + d16 * 2 ^ 43 + d17 * 2 ^ 38 + d18 * 2 ^ 33 + d19 * 2 ^ 28 + d20 * 2 ^ 23 + d21 * 2 ^ 18 := by
    apply lor_eq_add 23
    · exact (Nat.dvd_add (Nat.dvd_add (Nat.dvd_add (Nat.dvd_add (Nat.dvd_add (Nat.dvd_add (Nat.dvd_add (Nat.dvd_add (Dvd.dvd.mul_left (pow_dvd_pow 2 (by norm_num)) _) (Dvd.dvd.mul_left (pow_dvd_pow 2 (by norm_num)) _)) (Dvd.dvd.mul_left (pow_dvd_pow 2 (by norm_num)) _)) (Dvd.dvd.mul_left (pow_dvd_pow 2 (by norm_num)) _)) (Dvd.dvd.mul_left (pow_dvd_pow 2 (by norm_num)) _)) (Dvd.dvd.mul_left (pow_dvd_pow 2 (by norm_num)) _)) (Dvd.dvd.mul_left (pow_dvd_pow 2 (by norm_num)) _)) (Dvd.dvd.mul_left (pow_dvd_pow 2 (by norm_num)) _)) (Dvd.dvd.mul_left (pow_dvd_pow 2 (by norm_num)) _))
    · omega
  have elo9 : d12 % 2 * 2 ^ 63 + d13 * 2 ^ 58 + d14 * 2 ^ 53 + d15 * 2 ^ 48 + d16 * 2 ^ 43 + d17 * 2 ^ 38 + d18 * 2 ^ 33 + d19 * 2 ^ 28 + d20 * 2 ^ 23 + d21 * 2 ^ 18 ||| d22 * 2 ^ 13 = d12 % 2 * 2 ^ 63 + d13 * 2 ^ 58 + d14 * 2 ^ 53 + d15 * 2 ^ 48 + d16 * 2 ^ 43 + d17 * 2 ^ 38 + d18 * 2 ^ 33 + d19 * 2 ^ 28 + d20 * 2 ^ 23 + d21 * 2 ^ 18 + d22 * 2 ^ 13 := by
    apply lor_eq_add 18
    · exact (Nat.dvd_add (Nat.dvd_add (Nat.dvd_add (Nat.dvd_add (Nat.dvd_add (Nat.dvd_add (Nat.dvd_add (Nat.dvd_add (Nat.dvd_add (Dvd.dvd.mul_left (pow_dvd_pow 2 (by norm_num)) _) (Dvd.dvd.mul_left (pow_dvd_pow 2 (by norm_num)) _)) (Dvd.dvd.mul_left (pow_dvd_pow 2 (by norm_num)) _)) (Dvd.dvd.mul_left (pow_dvd_pow 2 (by norm_num)) _)) (Dvd.dvd.mul_left (pow_dvd_pow 2 (by norm_num)) _)) (Dvd.dvd.mul_left (pow_dvd_pow 2 (by norm_num)) _)) (Dvd.dvd.mul_left (pow_dvd_pow 2 (by norm_num)) _)) (Dvd.dvd.mul_left (pow_dvd_pow 2 (by norm_num)) _)) (Dvd.dvd.mul_left (pow_dvd_pow 2 (by norm_num)) _)) (Dvd.dvd.mul_left (pow_dvd_pow 2 (by norm_num)) _))
    · omega
  have elo10 : d12 % 2 * 2 ^ 63 + d13 * 2 ^ 58 + d14 * 2 ^ 53 + d15 * 2 ^ 48 + d16 * 2 ^ 43 + d17 * 2 ^ 38 + d18 * 2 ^ 33 + d19 * 2 ^ 28 + d20 * 2 ^ 23 + d21 * 2 ^ 18 + d22 * 2 ^ 13 ||| d23 * 2 ^ 8 = d12 % 2 * 2 ^ 63 + d13 * 2 ^ 58 + d14 * 2 ^ 53 + d15 * 2 ^ 48 + d16 * 2 ^ 43 + d17 * 2 ^ 38 + d18 * 2 ^ 33 + d19 * 2 ^ 28 + d20 * 2 ^ 23 + d21 * 2 ^ 18 + d22 * 2 ^ 13 + d23 * 2 ^ 8 := by
    apply lor_eq_add 13
    · exact (Nat.dvd_add (Nat.dvd_add (Nat.dvd_add (Nat.dvd_add (Nat.dvd_add (Nat.dvd_add (Nat.dvd_add (Nat.dvd_add (Nat.dvd_add (Nat.dvd_add (Dvd.dvd.mul_left (pow_dvd_pow 2 (by norm_num)) _) (Dvd.dvd.mul_left (pow_dvd_pow 2 (by norm_num)) _)) (Dvd.dvd.mul_left (pow_dvd_pow 2 (by norm_num)) _)) (Dvd.dvd.mul_left (pow_dvd_pow 2 (by norm_num)) _)) (Dvd.dvd.mul_left (pow_dvd_pow 2 (by norm_num)) _)) (Dvd.dvd.mul_left (pow_dvd_pow 2 (by norm_num)) _)) (Dvd.dvd.mul_left (pow_dvd_pow 2 (by norm_num)) _)) (Dvd.dvd.mul_left (pow_dvd_pow 2 (by norm_num)) _)) (Dvd.dvd.mul_left (pow_dvd_pow 2 (by norm_num)) _)) (Dvd.dvd.mul_left (pow_dvd_pow 2 (by norm_num)) _)) (Dvd.dvd.mul_left (pow_dvd_pow 2 (by norm_num)) _))
    · omega
  have elo11 : d12 % 2 * 2 ^ 63 + d13 * 2 ^ 58 + d14 * 2 ^ 53 + d15 * 2 ^ 48 + d16 * 2 ^ 43 + d17 * 2 ^ 38 + d18 * 2 ^ 33 + d19 * 2 ^ 28 + d20 * 2 ^ 23 + d21 * 2 ^ 18 + d22 * 2 ^ 13 + d23 * 2 ^ 8 ||| d24 * 2 ^ 3 = d12 % 2 * 2 ^ 63 + d13 * 2 ^ 58 + d14 * 2 ^ 53 + d15 * 2 ^ 48 + d16 * 2 ^ 43 + d17 * 2 ^ 38 + d18 * 2 ^ 33 + d19 * 2 ^ 28 + d20 * 2 ^ 23 + d21 * 2 ^ 18 + d22 * 2 ^ 13 + d23 * 2 ^ 8 + d24 * 2 ^ 3 := by
    apply lor_eq_add 8
    · exact (Nat.dvd_add (Nat.dvd_add (Nat.dvd_add (Nat.dvd_add (Nat.dvd_add (Nat.dvd_add (Nat.dvd_add (Nat.dvd_add (Nat.dvd_add (Nat.dvd_add (Nat.dvd_add (Dvd.dvd.mul_left (pow_dvd_pow 2 (by norm_num)) _) (Dvd.dvd.mul_left (pow_dvd_pow 2 (by norm_num)) _)) (Dvd.dvd.mul_left (pow_dvd_pow 2 (by norm_num)) _)) (Dvd.dvd.mul_left (pow_dvd_pow 2 (by norm_num)) _)) (Dvd.dvd.mul_left (pow_dvd_pow 2 (by norm_num)) _)) (Dvd.dvd.mul_left (pow_dvd_pow 2 (by norm_num)) _)) (Dvd.dvd.mul_left (pow_dvd_pow 2 (by norm_num)) _)) (Dvd.dvd.mul_left (pow_dvd_pow 2 (by norm_num)) _)) (Dvd.dvd.mul_left (pow_dvd_pow 2 (by norm_num)) _)) (Dvd.dvd.mul_left (pow_dvd_pow 2 (by norm_num)) _)) (Dvd.dvd.mul_left (pow_dvd_pow 2 (by norm_num)) _)) (Dvd.dvd.mul_left (pow_dvd_pow 2 (by norm_num)) _))
    · omega
  have elo12 : d12 % 2 * 2 ^ 63 + d13 * 2 ^ 58 + d14 * 2 ^ 53 + d15 * 2 ^ 48 + d16 * 2 ^ 43 + d17 * 2 ^ 38 + d18 * 2 ^ 33 + d19 * 2 ^ 28 + d20 * 2 ^ 23 + d21 * 2 ^ 18 + d22 * 2 ^ 13 + d23 * 2 ^ 8 + d24 * 2 ^ 3 ||| d25 >>> 2 = d12 % 2 * 2 ^ 63 + d13 * 2 ^ 58 + d14 * 2 ^ 53 + d15 * 2 ^ 48 + d16 * 2 ^ 43 + d17 * 2 ^ 38 + d18 * 2 ^ 33 + d19 * 2 ^ 28 + d20 * 2 ^ 23 + d21 * 2 ^ 18 + d22 * 2 ^ 13 + d23 * 2 ^ 8 + d24 * 2 ^ 3 + d25 >>> 2 := by
    apply lor_eq_add 3
    · exact (Nat.dvd_add (Nat.dvd_add (Nat.dvd_add (Nat.dvd_add (Nat.dvd_add (Nat.dvd_add (Nat.dvd_add (Nat.dvd_add (Nat.dvd_add (Nat.dvd_add (Nat.dvd_add (Nat.dvd_add (Dvd.dvd.mul_left (pow_dvd_pow 2 (by norm_num)) _) (Dvd.dvd.mul_left (pow_dvd_pow 2 (by norm_num)) _)) (Dvd.dvd.mul_left (pow_dvd_pow 2 (by norm_num)) _)) (Dvd.dvd.mul_left (pow_dvd_pow 2 (by norm_num)) _)) (Dvd.dvd.mul_left (pow_dvd_pow 2 (by norm_num)) _)) (Dvd.dvd.mul_left (pow_dvd_pow 2 (by norm_num)) _)) (Dvd.dvd.mul_left (pow_dvd_pow 2 (by norm_num)) _)) (Dvd.dvd.mul_left (pow_dvd_pow 2 (by norm_num)) _)) (Dvd.dvd.mul_left (pow_dvd_pow 2 (by norm_num)) _)) (Dvd.dvd.mul_left (pow_dvd_pow 2 (by norm_num)) _)) (Dvd.dvd.mul_left (pow_dvd_pow 2 (by norm_num)) _)) (Dvd.dvd.mul_left (pow_dvd_pow 2 (by norm_num)) _)) (Dvd.dvd.mul_left (pow_dvd_pow 2 (by norm_num)) _))
    · omega
  rw [ehi1, ehi2, ehi3, ehi4, ehi5, ehi6, ehi7, ehi8, ehi9, ehi10, ehi11, ehi12, elo0, elo1, elo2, elo3, elo4, elo5, elo6, elo7, elo8, elo9, elo10, elo11, elo12]

/-! ## Text codec round-trip -/
/-- `m7` always returns at most 127 (total-function bound). -/
theorem m7_le (x : EUID) : m7 x ≤ 127 := by
  unfold m7
  dsimp only
  have h := m7_loop_le (((x.hi <<< 64 ||| x.lo) &&& 0x7f) + ((x.hi <<< 64 ||| x.lo) >>> 7))
  split_ifs with hc <;> omega

theorem slot12_lt (hi lo : Nat) : ((hi &&& 0xf) <<< 1) ||| ((lo >>> 63) &&& 0x1) < 32 := by
  rw [and_15, and_1, Nat.shiftLeft_eq]
  rw [lor_eq_add 1 ⟨hi % 16, by ring⟩ (by omega)]
  omega

theorem slot12_eq (hi lo : Nat) :
    ((hi &&& 0xf) <<< 1) ||| ((lo >>> 63) &&& 0x1) = hi % 16 * 2 + lo >>> 63 % 2 := by
  rw [and_15, and_1, Nat.shiftLeft_eq]
  rw [lor_eq_add 1 ⟨hi % 16, by ring⟩ (by omega)]

theorem slot25_eq (lo c : Nat) (hc : c ≤ 127) :
    ((lo &&& 0x7) <<< 2) ||| (c >>> 5) = lo % 8 * 4 + c >>> 5 := by
  rw [and_7, Nat.shiftLeft_eq]
  rw [lor_eq_add 2 ⟨lo % 8, by ring⟩ (by omega)]

theorem sym_valid : ∀ v, v < 32 →
    (base32.ENCODING_SYMBOLS.getD v '0').toNat < 123 ∧
    base32.DECODING_SYMBOLS.getD (base32.ENCODING_SYMBOLS.getD v '0').toNat none = some v ∧
    (base32.ENCODING_SYMBOLS.getD v '0').utf8Size = 1 := by
  decide

theorem s25_mask : ∀ m, m < 8 → ∀ v, v < 4 →
    ((m <<< 2 ||| v) &&& 0x3 = v) ∧ ((m <<< 2 ||| v) &&& 0x1c = m <<< 2) := by
  decide

theorem check_recompose : ∀ v, v < 128 → (v >>> 5) <<< 5 ||| (v &&& 0x1f) = v := by
  decide

/-- The 27 5-bit groups of an encoded identifier (the `u5` values whose
symbols `encode` emits), as a function of the identifier and the
checkmod flag. -/
def euid_digits (x : EUID) (check : Nat) : List Nat :=
  [(x.hi >>> 59) &&& 0x1f,
   (x.hi >>> 54) &&& 0x1f,
   (x.hi >>> 49) &&& 0x1f,
   (x.hi >>> 44) &&& 0x1f,
   (x.hi >>> 39) &&& 0x1f,
   (x.hi >>> 34) &&& 0x1f,
   (x.hi >>> 29) &&& 0x1f,
   (x.hi >>> 24) &&& 0x1f,
   (x.hi >>> 19) &&& 0x1f,
   (x.hi >>> 14) &&& 0x1f,
   (x.hi >>> 9) &&& 0x1f,
   (x.hi >>> 4) &&& 0x1f,
   ((x.hi &&& 0xf) <<< 1) ||| ((x.lo >>> 63) &&& 0x1),
   (x.lo >>> 58) &&& 0x1f,
   (x.lo >>> 53) &&& 0x1f,
   (x.lo >>> 48) &&& 0x1f,
   (x.lo >>> 43) &&& 0x1f,
   (x.lo >>> 38) &&& 0x1f,
   (x.lo >>> 33) &&& 0x1f,
   (x.lo >>> 28) &&& 0x1f,
   (x.lo >>> 23) &&& 0x1f,
   (x.lo >>> 18) &&& 0x1f,
   (x.lo >>> 13) &&& 0x1f,
   (x.lo >>> 8) &&& 0x1f,
   (x.lo >>> 3) &&& 0x1f,
   ((x.lo &&& 0x7) <<< 2) ||| (check >>> 5),
   check &&& 0x1f]

theorem encode_eq_map (x : EUID) (checkmod : Bool) :
    base32.encode x checkmod =
      (euid_digits x (if checkmod then m7 x else 0x7f)).map
        (fun v => base32.ENCODING_SYMBOLS.getD v '0') := rfl

theorem decode_symbols_map (ds : List Nat) (h : ∀ d ∈ ds, d < 32) :
    base32.decode_symbols (ds.map (fun v => base32.ENCODING_SYMBOLS.getD v '0')) = .Ok ds := by
  induction ds with
  | nil => rfl
  | cons d ds ih =>
    obtain ⟨hc1, hc2, -⟩ := sym_valid d (h d (by simp))
    simp only [List.map_cons, base32.decode_symbols]
    rw [if_neg (by omega), hc2, ih (fun d hd => h d (by simp [hd]))]

theorem utf8Length_map_sym (ds : List Nat) (h : ∀ d ∈ ds, d < 32) :
    utf8Length (ds.map (fun v => base32.ENCODING_SYMBOLS.getD v '0')) = ds.length := by
  induction ds with
  | nil => rfl
  | cons d ds ih =>
    obtain ⟨-, -, h3⟩ := sym_valid d (h d (by simp))
    simp only [List.map_cons, utf8Length, List.sum_cons, List.length_cons] at *
    rw [h3, ih (fun d hd => h d (by simp [hd]))]
    omega
theorem hi_recompose (hi lo : Nat) (hhi : hi < 2 ^ 64) :
    ((hi >>> 59) &&& 0x1f) * 2 ^ 59 + ((hi >>> 54) &&& 0x1f) * 2 ^ 54 + ((hi >>> 49) &&& 0x1f) * 2 ^ 49 + ((hi >>> 44) &&& 0x1f) * 2 ^ 44 + ((hi >>> 39) &&& 0x1f) * 2 ^ 39 + ((hi >>> 34) &&& 0x1f) * 2 ^ 34 + ((hi >>> 29) &&& 0x1f) * 2 ^ 29 + ((hi >>> 24) &&& 0x1f) * 2 ^ 24 + ((hi >>> 19) &&& 0x1f) * 2 ^ 19 + ((hi >>> 14) &&& 0x1f) * 2 ^ 14 + ((hi >>> 9) &&& 0x1f) * 2 ^ 9 + ((hi >>> 4) &&& 0x1f) * 2 ^ 4 + (((hi &&& 0xf) <<< 1) ||| ((lo >>> 63) &&& 0x1)) >>> 1 % 16 = hi := by
  rw [slot12_eq hi lo]
  simp only [and_31]
  have u0 : ((hi >>> 59) % 32) * 2 ^ 59 + ((hi >>> 54) % 32) * 2 ^ 54 = (hi >>> 54) * 2 ^ 54 := by omega
  have u1 : (hi >>> 54) * 2 ^ 54 + ((hi >>> 49) % 32) * 2 ^ 49 = (hi >>> 49) * 2 ^ 49 := by omega
  have u2 : (hi >>> 49) * 2 ^ 49 + ((hi >>> 44) % 32) * 2 ^ 44 = (hi >>> 44) * 2 ^ 44 := by omega
  have u3 : (hi >>> 44) * 2 ^ 44 + ((hi >>> 39) % 32) * 2 ^ 39 = (hi >>> 39) * 2 ^ 39 := by omega
  have u4 : (hi >>> 39) * 2 ^ 39 + ((hi >>> 34) % 32) * 2 ^ 34 = (hi >>> 34) * 2 ^ 34 := by omega
  have u5 : (hi >>> 34) * 2 ^ 34 + ((hi >>> 29) % 32) * 2 ^ 29 = (hi >>> 29) * 2 ^ 29 := by omega
  have u6 : (hi >>> 29) * 2 ^ 29 + ((hi >>> 24) % 32) * 2 ^ 24 = (hi >>> 24) * 2 ^ 24 := by omega
  have u7 : (hi >>> 24) * 2 ^ 24 + ((hi >>> 19) % 32) * 2 ^ 19 = (hi >>> 19) * 2 ^ 19 := by omega
  have u8 : (hi >>> 19) * 2 ^ 19 + ((hi >>> 14) % 32) * 2 ^ 14 = (hi >>> 14) * 2 ^ 14 := by omega
  have u9 : (hi >>> 14) * 2 ^ 14 + ((hi >>> 9) % 32) * 2 ^ 9 = (hi >>> 9) * 2 ^ 9 := by omega
  have u10 : (hi >>> 9) * 2 ^ 9 + ((hi >>> 4) % 32) * 2 ^ 4 = (hi >>> 4) * 2 ^ 4 := by omega
  have u11 : (hi >>> 4) * 2 ^ 4 + (hi % 16 * 2 + lo >>> 63 % 2) >>> 1 % 16 = hi := by omega
  rw [u0, u1, u2, u3, u4, u5, u6, u7, u8, u9, u10, u11]

theorem lo_recompose (hi lo : Nat) (hlo : lo < 2 ^ 64) :
    (((hi &&& 0xf) <<< 1) ||| ((lo >>> 63) &&& 0x1)) % 2 * 2 ^ 63 + ((lo >>> 58) &&& 0x1f) * 2 ^ 58 + ((lo >>> 53) &&& 0x1f) * 2 ^ 53 + ((lo >>> 48) &&& 0x1f) * 2 ^ 48 + ((lo >>> 43) &&& 0x1f) * 2 ^ 43 + ((lo >>> 38) &&& 0x1f) * 2 ^ 38 + ((lo >>> 33) &&& 0x1f) * 2 ^ 33 + ((lo >>> 28) &&& 0x1f) * 2 ^ 28 + ((lo >>> 23) &&& 0x1f) * 2 ^ 23 + ((lo >>> 18) &&& 0x1f) * 2 ^ 18 + ((lo >>> 13) &&& 0x1f) * 2 ^ 13 + ((lo >>> 8) &&& 0x1f) * 2 ^ 8 + ((lo >>> 3) &&& 0x1f) * 2 ^ 3 + ((lo &&& 0x7) <<< 2) >>> 2 = lo := by
  rw [slot12_eq hi lo, and_7, Nat.shiftLeft_eq]
  simp only [and_31]
  have v0 : (hi % 16 * 2 + lo >>> 63 % 2) % 2 * 2 ^ 63 + ((lo >>> 58) % 32) * 2 ^ 58 = (lo >>> 58) * 2 ^ 58 := by omega
  have v1 : (lo >>> 58) * 2 ^ 58 + ((lo >>> 53) % 32) * 2 ^ 53 = (lo >>> 53) * 2 ^ 53 := by omega
  have v2 : (lo >>> 53) * 2 ^ 53 + ((lo >>> 48) % 32) * 2 ^ 48 = (lo >>> 48) * 2 ^ 48 := by omega
  have v3 : (lo >>> 48) * 2 ^ 48 + ((lo >>> 43) % 32) * 2 ^ 43 = (lo >>> 43) * 2 ^ 43 := by omega
  have v4 : (lo >>> 43) * 2 ^ 43 + ((lo >>> 38) % 32) * 2 ^ 38 = (lo >>> 38) * 2 ^ 38 := by omega
  have v5 : (lo >>> 38) * 2 ^ 38 + ((lo >>> 33) % 32) * 2 ^ 33 = (lo >>> 33) * 2 ^ 33 := by omega
  have v6 : (lo >>> 33) * 2 ^ 33 + ((lo >>> 28) % 32) * 2 ^ 28 = (lo >>> 28) * 2 ^ 28 := by omega
  have v7 : (lo >>> 28) * 2 ^ 28 + ((lo >>> 23) % 32) * 2 ^ 23 = (lo >>> 23) * 2 ^ 23 := by omega
  have v8 : (lo >>> 23) * 2 ^ 23 + ((lo >>> 18) % 32) * 2 ^ 18 = (lo >>> 18) * 2 ^ 18 := by omega
  have v9 : (lo >>> 18) * 2 ^ 18 + ((lo >>> 13) % 32) * 2 ^ 13 = (lo >>> 13) * 2 ^ 13 := by omega
  have v10 : (lo >>> 13) * 2 ^ 13 + ((lo >>> 8) % 32) * 2 ^ 8 = (lo >>> 8) * 2 ^ 8 := by omega
  have v11 : (lo >>> 8) * 2 ^ 8 + ((lo >>> 3) % 32) * 2 ^ 3 = (lo >>> 3) * 2 ^ 3 := by omega
  have v12 : (lo >>> 3) * 2 ^ 3 + (lo % 8 * 2 ^ 2) >>> 2 = lo := by omega
  rw [v0, v1, v2, v3, v4, v5, v6, v7, v8, v9, v10, v11, v12]

set_option maxHeartbeats 3200000 in
/-- C2 (confirmed): text round-trip.  For every identifier and both
checkmod flags, `decode (encode x b) = Ok x` — decoding never errors on
encoder output; when `b = false` the embedded value is the sentinel `0x7f`
and decode skips checksum verification rather than raising an error. -/
theorem decode_encode_roundtrip (hi lo : Nat) (hhi : hi < 2 ^ 64) (hlo : lo < 2 ^ 64)
    (cm : Bool) :
    base32.decode (base32.encode ⟨hi, lo⟩ cm) = .Ok ⟨hi, lo⟩ := by
  rw [encode_eq_map]
  set c := if cm then m7 ⟨hi, lo⟩ else 0x7f with hcdef
  have hcle : c ≤ 127 := by
    rw [hcdef]
    split_ifs
    · exact m7_le _
    · norm_num
  have hdig : euid_digits ⟨hi, lo⟩ c =
      [(hi >>> 59) &&& 0x1f,
       (hi >>> 54) &&& 0x1f,
       (hi >>> 49) &&& 0x1f,
       (hi >>> 44) &&& 0x1f,
       (hi >>> 39) &&& 0x1f,
       (hi >>> 34) &&& 0x1f,
       (hi >>> 29) &&& 0x1f,
       (hi >>> 24) &&& 0x1f,
       (hi >>> 19) &&& 0x1f,
       (hi >>> 14) &&& 0x1f,
       (hi >>> 9) &&& 0x1f,
       (hi >>> 4) &&& 0x1f,
       ((hi &&& 0xf) <<< 1) ||| ((lo >>> 63) &&& 0x1),
       (lo >>> 58) &&& 0x1f,
       (lo >>> 53) &&& 0x1f,
       (lo >>> 48) &&& 0x1f,
       (lo >>> 43) &&& 0x1f,
       (lo >>> 38) &&& 0x1f,
       (lo >>> 33) &&& 0x1f,
       (lo >>> 28) &&& 0x1f,
       (lo >>> 23) &&& 0x1f,
       (lo >>> 18) &&& 0x1f,
       (lo >>> 13) &&& 0x1f,
       (lo >>> 8) &&& 0x1f,
       (lo >>> 3) &&& 0x1f,
       ((lo &&& 0x7) <<< 2) ||| (c >>> 5),
       c &&& 0x1f] := rfl
  rw [hdig]
  have hbounds : ∀ d ∈ [(hi >>> 59) &&& 0x1f,
       (hi >>> 54) &&& 0x1f,
       (hi >>> 49) &&& 0x1f,
       (hi >>> 44) &&& 0x1f,
       (hi >>> 39) &&& 0x1f,
       (hi >>> 34) &&& 0x1f,
       (hi >>> 29) &&& 0x1f,
       (hi >>> 24) &&& 0x1f,
       (hi >>> 19) &&& 0x1f,
       (hi >>> 14) &&& 0x1f,
       (hi >>> 9) &&& 0x1f,
       (hi >>> 4) &&& 0x1f,
       ((hi &&& 0xf) <<< 1) ||| ((lo >>> 63) &&& 0x1),
       (lo >>> 58) &&& 0x1f,
       (lo >>> 53) &&& 0x1f,
       (lo >>> 48) &&& 0x1f,
       (lo >>> 43) &&& 0x1f,
       (lo >>> 38) &&& 0x1f,
       (lo >>> 33) &&& 0x1f,
       (lo >>> 28) &&& 0x1f,
       (lo >>> 23) &&& 0x1f,
       (lo >>> 18) &&& 0x1f,
       (lo >>> 13) &&& 0x1f,
       (lo >>> 8) &&& 0x1f,
       (lo >>> 3) &&& 0x1f,
       ((lo &&& 0x7) <<< 2) ||| (c >>> 5),
       c &&& 0x1f], d < 32 := by
    intro d hd
    simp only [List.mem_cons, List.not_mem_nil, or_false] at hd
    rcases hd with rfl|rfl|rfl|rfl|rfl|rfl|rfl|rfl|rfl|rfl|rfl|rfl|rfl|rfl|rfl|rfl|rfl|rfl|rfl|rfl|rfl|rfl|rfl|rfl|rfl|rfl|rfl
    all_goals first
      | (rw [and_31]; omega)
      | (exact slot12_lt hi lo)
      | (rw [slot25_eq lo c hcle]; omega)
  unfold base32.decode
  rw [utf8Length_map_sym _ hbounds]
  have hlen27 : ([(hi >>> 59) &&& 0x1f,
       (hi >>> 54) &&& 0x1f,
       (hi >>> 49) &&& 0x1f,
       (hi >>> 44) &&& 0x1f,
       (hi >>> 39) &&& 0x1f,
       (hi >>> 34) &&& 0x1f,
       (hi >>> 29) &&& 0x1f,
       (hi >>> 24) &&& 0x1f,
       (hi >>> 19) &&& 0x1f,
       (hi >>> 14) &&& 0x1f,
       (hi >>> 9) &&& 0x1f,
       (hi >>> 4) &&& 0x1f,
       ((hi &&& 0xf) <<< 1) ||| ((lo >>> 63) &&& 0x1),
       (lo >>> 58) &&& 0x1f,
       (lo >>> 53) &&& 0x1f,
       (lo >>> 48) &&& 0x1f,
       (lo >>> 43) &&& 0x1f,
       (lo >>> 38) &&& 0x1f,
       (lo >>> 33) &&& 0x1f,
       (lo >>> 28) &&& 0x1f,
       (lo >>> 23) &&& 0x1f,
       (lo >>> 18) &&& 0x1f,
       (lo >>> 13) &&& 0x1f,
       (lo >>> 8) &&& 0x1f,
       (lo >>> 3) &&& 0x1f,
       ((lo &&& 0x7) <<< 2) ||| (c >>> 5),
       c &&& 0x1f] : List Nat).length = 27 := rfl
  rw [hlen27, if_neg (fun hcon => hcon rfl), decode_symbols_map _ hbounds]
  dsimp only
  simp only [List.getD_cons_succ, List.getD_cons_zero, List.set_cons_succ,
    List.set_cons_zero]
  have h7 : lo &&& 0x7 < 8 := by rw [and_7]; omega
  obtain ⟨hs1, hs2⟩ := s25_mask (lo &&& 0x7) h7 (c >>> 5) (by omega)
  rw [hs1, hs2, check_recompose c (by omega)]
  have hre := to_u64_digits
      ((hi >>> 59) &&& 0x1f)
      ((hi >>> 54) &&& 0x1f)
      ((hi >>> 49) &&& 0x1f)
      ((hi >>> 44) &&& 0x1f)
      ((hi >>> 39) &&& 0x1f)
      ((hi >>> 34) &&& 0x1f)
      ((hi >>> 29) &&& 0x1f)
      ((hi >>> 24) &&& 0x1f)
      ((hi >>> 19) &&& 0x1f)
      ((hi >>> 14) &&& 0x1f)
      ((hi >>> 9) &&& 0x1f)
      ((hi >>> 4) &&& 0x1f)
      (((hi &&& 0xf) <<< 1) ||| ((lo >>> 63) &&& 0x1))
      ((lo >>> 58) &&& 0x1f)
      ((lo >>> 53) &&& 0x1f)
      ((lo >>> 48) &&& 0x1f)
      ((lo >>> 43) &&& 0x1f)
      ((lo >>> 38) &&& 0x1f)
      ((lo >>> 33) &&& 0x1f)
      ((lo >>> 28) &&& 0x1f)
      ((lo >>> 23) &&& 0x1f)
      ((lo >>> 18) &&& 0x1f)
      ((lo >>> 13) &&& 0x1f)
      ((lo >>> 8) &&& 0x1f)
      ((lo >>> 3) &&& 0x1f)
      ((lo &&& 0x7) <<< 2)
      (c &&& 0x1f)
      (by rw [and_31]; omega)
      (by rw [and_31]; omega)
      (by rw [and_31]; omega)
      (by rw [and_31]; omega)
      (by rw [and_31]; omega)
      (by rw [and_31]; omega)
      (by rw [and_31]; omega)
      (by rw [and_31]; omega)
      (by rw [and_31]; omega)
      (by rw [and_31]; omega)
      (by rw [and_31]; omega)
      (by rw [and_31]; omega)
      (slot12_lt hi lo)
      (by rw [and_31]; omega)
      (by rw [and_31]; omega)
      (by rw [and_31]; omega)
      (by rw [and_31]; omega)
      (by rw [and_31]; omega)
      (by rw [and_31]; omega)
      (by rw [and_31]; omega)
      (by rw [and_31]; omega)
      (by rw [and_31]; omega)
      (by rw [and_31]; omega)
      (by rw [and_31]; omega)
      (by rw [and_31]; omega)
      (by rw [and_7, Nat.shiftLeft_eq]; omega)
  rw [hre]
  dsimp only
  rw [hi_recompose hi lo hhi, lo_recompose hi lo hlo]
  have hceq : c = 127 ∨ c = m7 ⟨hi, lo⟩ := by
    by_cases hcm : cm = true
    · right
      rw [hcdef, if_pos hcm]
    · left
      rw [hcdef, if_neg hcm]
  rcases hceq with h | h
  · rw [h, if_pos rfl]
  · by_cases h127 : c = 0x7f
    · rw [if_pos h127]
    · rw [if_neg h127, if_neg (fun hcon => hcon h)]

/-- Witness for C2 at the identifier `⟨3, 5⟩` with checksum enabled. -/
theorem decode_encode_roundtrip_witness :
    base32.decode (base32.encode ⟨3, 5⟩ true) = .Ok ⟨3, 5⟩ :=
  decode_encode_roundtrip 3 5 (by norm_num) (by norm_num) true

/-! ## Sortability of the text encoding -/

/-- Base-32 value of a digit list (Horner form, matching the positional
value of the encoded string). -/
def val32 (ds : List Nat) : Nat := ds.foldl (fun acc d => acc * 32 + d) 0

theorem foldl_lt_of_lt_or_lex :
    ∀ (s t : List Nat), s.length = t.length → (∀ d ∈ s, d < 32) →
      (∀ acc1 acc2 : Nat,
        (acc1 < acc2 ∨ (acc1 = acc2 ∧ List.Lex (· < ·) s t)) →
        List.foldl (fun acc d => acc * 32 + d) acc1 s <
          List.foldl (fun acc d => acc * 32 + d) acc2 t) := by
  intro s
  induction s with
  | nil =>
    intro t hlen hs acc1 acc2 hacc
    have ht : t = [] := by
      cases t with
      | nil => rfl
      | cons b t' => simp at hlen
    subst ht
    rcases hacc with h | ⟨h1, h2⟩
    · simpa using h
    · exact absurd h2 (by intro hcon; cases hcon)
  | cons a s' ih =>
    intro t hlen hs acc1 acc2 hacc
    cases t with
    | nil => simp at hlen
    | cons b t' =>
      simp only [List.length_cons] at hlen
      simp only [List.foldl_cons]
      have ha : a < 32 := hs a (by simp)
      rcases hacc with h | ⟨h1, h2⟩
      · exact ih t' (by omega) (fun d hd => hs d (by simp [hd]))
          (acc1 * 32 + a) (acc2 * 32 + b) (Or.inl (by omega))
      · subst h1
        cases h2 with
        | rel hab =>
          exact ih t' (by omega) (fun d hd => hs d (by simp [hd]))
            (acc1 * 32 + a) (acc1 * 32 + b) (Or.inl (by omega))
        | cons h' =>
          exact ih t' (by omega) (fun d hd => hs d (by simp [hd]))
            (acc1 * 32 + a) (acc1 * 32 + a) (Or.inr ⟨rfl, h'⟩)

theorem val32_lt_of_lex (s t : List Nat) (hlen : s.length = t.length)
    (hs : ∀ d ∈ s, d < 32) (h : List.Lex (· < ·) s t) : val32 s < val32 t :=
  foldl_lt_of_lt_or_lex s t hlen hs 0 0 (Or.inr ⟨rfl, h⟩)

theorem lex_trichotomy :
    ∀ (s t : List Nat), s.length = t.length →
      s = t ∨ List.Lex (· < ·) s t ∨ List.Lex (· < ·) t s := by
  intro s
  induction s with
  | nil =>
    intro t hlen
    cases t with
    | nil => exact Or.inl rfl
    | cons b t' => simp at hlen
  | cons a s' ih =>
    intro t hlen
    cases t with
    | nil => simp at hlen
    | cons b t' =>
      simp only [List.length_cons] at hlen
      rcases Nat.lt_trichotomy a b with h | h | h
      · exact Or.inr (Or.inl (List.Lex.rel h))
      · subst h
        rcases ih t' (by omega) with h' | h' | h'
        · exact Or.inl (by rw [h'])
        · exact Or.inr (Or.inl (List.Lex.cons h'))
        · exact Or.inr (Or.inr (List.Lex.cons h'))
      · exact Or.inr (Or.inr (List.Lex.rel h))

theorem sym_mono : ∀ u, u < 32 → ∀ v, v < 32 → u < v →
    base32.ENCODING_SYMBOLS.getD u '0' < base32.ENCODING_SYMBOLS.getD v '0' := by
  decide

theorem lex_map_sym :
    ∀ (s t : List Nat), (∀ d ∈ s, d < 32) → (∀ d ∈ t, d < 32) →
      List.Lex (· < ·) s t →
      List.Lex (· < ·) (s.map (fun v => base32.ENCODING_SYMBOLS.getD v '0'))
        (t.map (fun v => base32.ENCODING_SYMBOLS.getD v '0')) := by
  intro s
  induction s with
  | nil =>
    intro t hs ht h
    cases h with
    | nil =>
      simp only [List.map_nil, List.map_cons]
      exact List.Lex.nil
  | cons a s' ih =>
    intro t hs ht h
    cases h with
    | rel hab =>
      simp only [List.map_cons]
      exact List.Lex.rel (sym_mono a (hs a (by simp)) _ (ht _ (by simp)) hab)
    | cons h' =>
      simp only [List.map_cons]
      exact List.Lex.cons (ih _ (fun d hd => hs d (by simp [hd]))
        (fun d hd => ht d (by simp [hd])) h')

theorem cmp_lt_iff (a b : EUID) :
    EUID.cmp a b = .lt ↔ (a.hi < b.hi ∨ (a.hi = b.hi ∧ a.lo < b.lo)) := by
  unfold EUID.cmp
  split_ifs with h1 h2 h3 h4 <;> simp_all <;> omega

set_option maxHeartbeats 1600000 in
theorem val32_euid_digits (hi lo c : Nat) (hhi : hi < 2 ^ 64) (hlo : lo < 2 ^ 64)
    (hc : c ≤ 127) :
    val32 (euid_digits ⟨hi, lo⟩ c) = (hi * 2 ^ 64 + lo) * 128 + c := by
  unfold euid_digits val32
  dsimp only
  simp only [List.foldl_cons, List.foldl_nil]
  rw [slot12_eq hi lo, slot25_eq lo c hc]
  simp only [and_31]
  have a0 : 0 * 32 + (hi >>> 59) % 32 = hi >>> 59 := by omega
  have a1 : (hi >>> 59) * 32 + (hi >>> 54) % 32 = hi >>> 54 := by omega
  have a2 : (hi >>> 54) * 32 + (hi >>> 49) % 32 = hi >>> 49 := by omega
  have a3 : (hi >>> 49) * 32 + (hi >>> 44) % 32 = hi >>> 44 := by omega
  have a4 : (hi >>> 44) * 32 + (hi >>> 39) % 32 = hi >>> 39 := by omega
  have a5 : (hi >>> 39) * 32 + (hi >>> 34) % 32 = hi >>> 34 := by omega
  have a6 : (hi >>> 34) * 32 + (hi >>> 29) % 32 = hi >>> 29 := by omega
  have a7 : (hi >>> 29) * 32 + (hi >>> 24) % 32 = hi >>> 24 := by omega
  have a8 : (hi >>> 24) * 32 + (hi >>> 19) % 32 = hi >>> 19 := by omega
  have a9 : (hi >>> 19) * 32 + (hi >>> 14) % 32 = hi >>> 14 := by omega
  have a10 : (hi >>> 14) * 32 + (hi >>> 9) % 32 = hi >>> 9 := by omega
  have a11 : (hi >>> 9) * 32 + (hi >>> 4) % 32 = hi >>> 4 := by omega
  have a12 : (hi >>> 4) * 32 + (hi % 16 * 2 + lo >>> 63 % 2) = hi * 2 + lo >>> 63 % 2 := by omega
  have b0 : (hi * 2 + lo >>> 63 % 2) * 32 + (lo >>> 58) % 32 = hi * 2 ^ 6 + lo >>> 58 := by omega
  have b1 : (hi * 2 ^ 6 + lo >>> 58) * 32 + (lo >>> 53) % 32 = hi * 2 ^ 11 + lo >>> 53 := by omega
  have b2 : (hi * 2 ^ 11 + lo >>> 53) * 32 + (lo >>> 48) % 32 = hi * 2 ^ 16 + lo >>> 48 := by omega
  have b3 : (hi * 2 ^ 16 + lo >>> 48) * 32 + (lo >>> 43) % 32 = hi * 2 ^ 21 + lo >>> 43 := by omega
  have b4 : (hi * 2 ^ 21 + lo >>> 43) * 32 + (lo >>> 38) % 32 = hi * 2 ^ 26 + lo >>> 38 := by omega
  have b5 : (hi * 2 ^ 26 + lo >>> 38) * 32 + (lo >>> 33) % 32 = hi * 2 ^ 31 + lo >>> 33 := by omega
  have b6 : (hi * 2 ^ 31 + lo >>> 33) * 32 + (lo >>> 28) % 32 = hi * 2 ^ 36 + lo >>> 28 := by omega
  have b7 : (hi * 2 ^ 36 + lo >>> 28) * 32 + (lo >>> 23) % 32 = hi * 2 ^ 41 + lo >>> 23 := by omega
  have b8 : (hi * 2 ^ 41 + lo >>> 23) * 32 + (lo >>> 18) % 32 = hi * 2 ^ 46 + lo >>> 18 := by omega
  have b9 : (hi * 2 ^ 46 + lo >>> 18) * 32 + (lo >>> 13) % 32 = hi * 2 ^ 51 + lo >>> 13 := by omega
  have b10 : (hi * 2 ^ 51 + lo >>> 13) * 32 + (lo >>> 8) % 32 = hi * 2 ^ 56 + lo >>> 8 := by omega
  have b11 : (hi * 2 ^ 56 + lo >>> 8) * 32 + (lo >>> 3) % 32 = hi * 2 ^ 61 + lo >>> 3 := by omega
  have b12 : (hi * 2 ^ 61 + lo >>> 3) * 32 + (lo % 8 * 4 + c >>> 5) = hi * 2 ^ 66 + lo * 4 + c >>> 5 := by omega
  have b13 : (hi * 2 ^ 66 + lo * 4 + c >>> 5) * 32 + c % 32 = hi * 2 ^ 71 + lo * 128 + c := by omega
  rw [a0, a1, a2, a3, a4, a5, a6, a7, a8, a9, a10, a11, a12, b0, b1, b2, b3, b4, b5, b6, b7, b8, b9, b10, b11, b12, b13]
  ring

theorem euid_digits_length (x : EUID) (c : Nat) : (euid_digits x c).length = 27 := rfl

theorem euid_digits_bounds (hi lo c : Nat) (hc : c ≤ 127) :
    ∀ d ∈ euid_digits ⟨hi, lo⟩ c, d < 32 := by
  intro d hd
  unfold euid_digits at hd
  dsimp only at hd
  simp only [List.mem_cons, List.not_mem_nil, or_false] at hd
  rcases hd with rfl|rfl|rfl|rfl|rfl|rfl|rfl|rfl|rfl|rfl|rfl|rfl|rfl|rfl|rfl|rfl|rfl|rfl|rfl|rfl|rfl|rfl|rfl|rfl|rfl|rfl|rfl
  all_goals first
    | (rw [and_31]; omega)
    | (exact slot12_lt hi lo)
    | (rw [slot25_eq lo c hc]; omega)

set_option maxHeartbeats 800000 in
/-- C5 (confirmed): the text encoding is strictly monotone with respect to
the binary order: for every two identifiers `a < b` under the `(hi, lo)`
comparison and either fixed checkmod flag, `encode a` is lexicographically
smaller than `encode b` by plain character comparison. -/
theorem encode_sortable (a b : EUID) (ha1 : a.hi < 2 ^ 64) (ha2 : a.lo < 2 ^ 64)
    (hb1 : b.hi < 2 ^ 64) (hb2 : b.lo < 2 ^ 64) (hab : EUID.cmp a b = .lt) (cm : Bool) :
    List.Lex (· < ·) (base32.encode a cm) (base32.encode b cm) := by
  obtain ⟨ha, la⟩ := a
  obtain ⟨hb, lb⟩ := b
  dsimp only at ha1 ha2 hb1 hb2
  have hN : ha * 2 ^ 64 + la < hb * 2 ^ 64 + lb := by
    have h := (cmp_lt_iff ⟨ha, la⟩ ⟨hb, lb⟩).mp hab
    dsimp only at h
    omega
  rw [encode_eq_map, encode_eq_map]
  set ca := if cm then m7 ⟨ha, la⟩ else 0x7f with hcadef
  set cb := if cm then m7 ⟨hb, lb⟩ else 0x7f with hcbdef
  have hcale : ca ≤ 127 := by
    rw [hcadef]
    split_ifs
    · exact m7_le _
    · norm_num
  have hcble : cb ≤ 127 := by
    rw [hcbdef]
    split_ifs
    · exact m7_le _
    · norm_num
  have hba := euid_digits_bounds ha la ca hcale
  have hbb := euid_digits_bounds hb lb cb hcble
  apply lex_map_sym _ _ hba hbb
  have hva := val32_euid_digits ha la ca ha1 ha2 hcale
  have hvb := val32_euid_digits hb lb cb hb1 hb2 hcble
  have hlen : (euid_digits ⟨ha, la⟩ ca).length = (euid_digits ⟨hb, lb⟩ cb).length := by
    rw [euid_digits_length, euid_digits_length]
  rcases lex_trichotomy (euid_digits ⟨ha, la⟩ ca) (euid_digits ⟨hb, lb⟩ cb) hlen
    with heq | hlex | hgt
  · exfalso
    have : val32 (euid_digits ⟨ha, la⟩ ca) = val32 (euid_digits ⟨hb, lb⟩ cb) := by rw [heq]
    omega
  · exact hlex
  · exfalso
    have := val32_lt_of_lex _ _ hlen.symm hbb hgt
    omega

/-- Witness for C5 at `a = ⟨0, 0⟩`, `b = ⟨0, 1⟩`, checkmod off. -/
theorem encode_sortable_witness :
    List.Lex (· < ·) (base32.encode ⟨0, 0⟩ false) (base32.encode ⟨0, 1⟩ false) :=
  encode_sortable ⟨0, 0⟩ ⟨0, 1⟩ (by norm_num) (by norm_num) (by norm_num) (by norm_num)
    (by decide) false

/-! ## Character validation during decoding -/

/-- C7 counterexample: a 27-character string containing the lowercase
letter `z` — a character that is not one of the 32 uppercase alphabet
symbols — is decoded successfully (the decode table accepts lowercase
letters case-insensitively), instead of failing with `InvalidCharacter`. -/
theorem decode_lowercase_accepted_counterexample :
    base32.decode ("C8ZM14GR4JXG0MQXVY18S8TJNBz".toList) =
      .Ok ⟨7079448135464172288, 5980181632016143018⟩ ∧
    'z' ∈ "C8ZM14GR4JXG0MQXVY18S8TJNBz".toList ∧
    'z' ∉ base32.ENCODING_SYMBOLS ∧
    utf8Length ("C8ZM14GR4JXG0MQXVY18S8TJNBz".toList) = 27 := by
  decide

theorem decode_symbols_first_invalid (pre : List Char) (c : Char) (post : List Char)
    (hpre : ∀ d ∈ pre, d.toNat < 123 ∧
      (base32.DECODING_SYMBOLS.getD d.toNat none).isSome = true)
    (hc : 123 ≤ c.toNat ∨ base32.DECODING_SYMBOLS.getD c.toNat none = none) :
    base32.decode_symbols (pre ++ c :: post) = .Err (.InvalidCharacter c) := by
  induction pre with
  | nil =>
    simp only [List.nil_append, base32.decode_symbols]
    by_cases h123 : c.toNat ≥ 123
    · rw [if_pos h123]
    · rcases hc with h | h
      · exact absurd h h123
      · rw [if_neg h123, h]
  | cons d pre ih =>
    obtain ⟨h1, h2⟩ := hpre d (by simp)
    simp only [List.cons_append, base32.decode_symbols]
    rw [if_neg (by omega)]
    obtain ⟨v, hv⟩ := Option.isSome_iff_exists.mp h2
    rw [hv]
    dsimp only
    rw [List.append_eq, ih (fun d hd => hpre d (by simp [hd]))]

/-- C7 (corrected): decoding rejects exactly the characters with no decode
table entry, reporting the first offending character: for every 27-byte
input of the form `pre ++ c :: post` whose prefix characters all have a
table entry and whose character `c` has none (code point at least 123, or
an invalid-marked entry such as `'U'`, `'u'`, punctuation, or whitespace),
decode fails with `InvalidCharacter c`.  Lowercase letters other than `u`
are accepted case-insensitively and the look-alikes `I`, `i`, `L`, `l`
decode as 1 and `O`, `o` as 0, so they are not rejected. -/
theorem decode_invalid_character (pre post : List Char) (c : Char)
    (hlen : utf8Length (pre ++ c :: post) = 27)
    (hpre : ∀ d ∈ pre, d.toNat < 123 ∧
      (base32.DECODING_SYMBOLS.getD d.toNat none).isSome = true)
    (hc : 123 ≤ c.toNat ∨ base32.DECODING_SYMBOLS.getD c.toNat none = none) :
    base32.decode (pre ++ c :: post) = .Err (.InvalidCharacter c) := by
  unfold base32.decode
  rw [hlen, if_neg (fun hcon => hcon rfl),
    decode_symbols_first_invalid pre c post hpre hc]

/-- Witness for C7's amended theorem on the crate's own test vector ending
in `'U'`. -/
theorem decode_invalid_character_witness :
    base32.decode ("C8EE934SR007G5Q94QKKXFRFV8".toList ++ 'U' :: []) =
      .Err (.InvalidCharacter 'U') :=
  decode_invalid_character "C8EE934SR007G5Q94QKKXFRFV8".toList [] 'U' (by decide)
    (by decide) (by decide)
